import Mathlib

/-
Shallow embedding of the MCS-51 (8051) decode-execute core from src/src/mcs51.rs.

Machine integers are modelled as Nat with explicit modular reduction at the
points where the Rust code performs wrapping machine arithmetic (u8 and u16
release-mode semantics; the specification also mandates wrapping for DEC).
The external Memory collaborator is modelled as a RAM backing every address
space: reads and writes always succeed, reads truncate stored values to a
byte.  Fallible operations return Except String, carrying the exact error
strings of the source.
-/

namespace Mcs51

set_option maxHeartbeats 1000000
set_option maxRecDepth 16384

inductive Address where
  | Code (a : Nat)
  | ExternalData (a : Nat)
  | InternalData (a : Nat)
  | SpecialFunctionRegister (a : Nat)
  | Bit (a : Nat)
deriving DecidableEq

inductive Register where
  | R0 | R1 | R2 | R3 | R4 | R5 | R6 | R7 | A | C | PC | DPTR
deriving DecidableEq

inductive AddressingMode where
  | Immediate (imm8 : Nat)
  | Register (r : Mcs51.Register)
  | Bit (bit : Nat)
  | NotBit (bit : Nat)
  | Direct (address : Nat)
  | Indirect (r : Mcs51.Register)
  | IndirectExternal (r : Mcs51.Register)
  | IndirectCode (r : Mcs51.Register)
deriving DecidableEq

inductive Instruction where
  | ACALL (a : Nat)
  | ADD (m : AddressingMode)
  | ADDC (m : AddressingMode)
  | AJMP (a : Nat)
  | ANL (m1 m2 : AddressingMode)
  | CJNE (m1 m2 : AddressingMode) (rel : Int)
  | CLR (m : AddressingMode)
  | CPL (m : AddressingMode)
  | DA
  | DEC (m : AddressingMode)
  | DIV
  | DJNZ (m : AddressingMode) (rel : Int)
  | INC (m : AddressingMode)
  | JB (m : AddressingMode) (rel : Int)
  | JBC (m : AddressingMode) (rel : Int)
  | JC (rel : Int)
  | JMP
  | JNB (m : AddressingMode) (rel : Int)
  | JNC (rel : Int)
  | JNZ (rel : Int)
  | JZ (rel : Int)
  | LCALL (a : Nat)
  | LJMP (a : Nat)
  | LoadDptr (a : Nat)
  | MOV (m1 m2 : AddressingMode)
  | MOVC (m : AddressingMode)
  | MOVX (m1 m2 : AddressingMode)
  | MUL
  | NOP
  | ORL (m1 m2 : AddressingMode)
  | POP (m : AddressingMode)
  | PUSH (m : AddressingMode)
  | RET
  | RETI
  | RL
  | RLC
  | RR
  | RRC
  | SETB (m : AddressingMode)
  | SJMP (rel : Int)
  | SUBB (m : AddressingMode)
  | SWAP
  | XCH (m : AddressingMode)
  | XCHD (m : AddressingMode)
  | XRL (m1 m2 : AddressingMode)
  | Undefined
deriving DecidableEq

/-- Pointwise function update, used by the RAM collaborator model. -/
def upd (f : Nat → Nat) (a v : Nat) : Nat → Nat :=
  fun x => if x = a then v else f x

/-- The external Memory collaborator, modelled as a RAM backing all five
address spaces of the tagged Address union.  The core is generic over the
collaborator; this instantiation makes every read and write succeed. -/
structure Mem where
  code : Nat → Nat
  xram : Nat → Nat
  iram : Nat → Nat
  sfr : Nat → Nat
  bits : Nat → Nat

/-- Memory trait operation read_memory: resolves a tagged address to a byte.
In this RAM model every space is backed, so reads always succeed; stored
values are truncated to a byte on the way out (the trait returns u8). -/
def Mem.read_memory (m : Mem) : Address → Except String Nat
  | .Code a => .ok (m.code a % 256)
  | .ExternalData a => .ok (m.xram a % 256)
  | .InternalData a => .ok (m.iram a % 256)
  | .SpecialFunctionRegister a => .ok (m.sfr a % 256)
  | .Bit a => .ok (m.bits a % 256)

/-- Memory trait operation write_memory: persists a byte.  Always succeeds in
this RAM model. -/
def Mem.write_memory (m : Mem) : Address → Nat → Except String Mem
  | .Code a, d => .ok { m with code := upd m.code a d }
  | .ExternalData a, d => .ok { m with xram := upd m.xram a d }
  | .InternalData a, d => .ok { m with iram := upd m.iram a d }
  | .SpecialFunctionRegister a, d => .ok { m with sfr := upd m.sfr a d }
  | .Bit a, d => .ok { m with bits := upd m.bits a d }

/-- register_from_opcode: maps the low three bits of an opcode to R0..R7
(the source masks with 0x7 and has an unreachable fallback to A). -/
def register_from_opcode (id : Nat) : Register :=
  match id % 8 with
  | 0 => .R0
  | 1 => .R1
  | 2 => .R2
  | 3 => .R3
  | 4 => .R4
  | 5 => .R5
  | 6 => .R6
  | 7 => .R7
  | _ => .A

/-- CPU state: the architectural register file plus the memory handle
(the field spelling auxillary_carry_flag follows the source). -/
structure CPU where
  bank : Nat
  carry_flag : Nat
  auxillary_carry_flag : Nat
  overflow_flag : Nat
  accumulator : Nat
  b_register : Nat
  stack_pointer : Nat
  data_pointer : Nat
  program_counter : Nat
  memory : Mem

/-- CPU::new - all architectural state zeroed. -/
def CPU.new (memory : Mem) : CPU :=
  { bank := 0
    carry_flag := 0
    auxillary_carry_flag := 0
    overflow_flag := 0
    accumulator := 0
    b_register := 0
    stack_pointer := 0
    data_pointer := 0
    program_counter := 0
    memory := memory }

/-- Reading a single bit value at 8051 bit address bit: the Bit arm of
CPU::load.  Bit addresses below 128 overlay internal RAM bytes 0x20..0x2F;
0xE0..0xE7 and 0xF0..0xF7 are accumulator / B register bits; all other
addresses are delegated to the collaborator as Address::Bit. -/
def CPU.loadBit (cpu : CPU) (bit : Nat) : Except String Nat :=
  if bit < 128 then
    match cpu.memory.read_memory (.InternalData (0x20 + (bit >>> 3))) with
    | .error e => .error e
    | .ok octet =>
      if octet &&& (1 <<< (bit &&& 0x07)) ≠ 0 then .ok 1 else .ok 0
  else
    if 0xE0 ≤ bit ∧ bit ≤ 0xE7 then
      .ok ((cpu.accumulator >>> (bit &&& 0x7)) &&& 0x1)
    else if 0xF0 ≤ bit ∧ bit ≤ 0xF7 then
      .ok ((cpu.b_register >>> (bit &&& 0x7)) &&& 0x1)
    else
      cpu.memory.read_memory (.Bit bit)

/-- CPU::load - perform a load using a particular addressing mode.
The NotBit recursion of the source is expressed through the loadBit helper. -/
def CPU.load (cpu : CPU) (mode : AddressingMode) : Except String Nat :=
  match mode with
  | .Immediate imm8 => .ok imm8
  | .Register register =>
    -- 8051 registers occupy the first 32-bytes of memory
    let bank := cpu.bank <<< 3
    match register with
    | .A => .ok cpu.accumulator
    | .C => .ok cpu.carry_flag
    | .R0 => cpu.memory.read_memory (.InternalData (bank + 0))
    | .R1 => cpu.memory.read_memory (.InternalData (bank + 1))
    | .R2 => cpu.memory.read_memory (.InternalData (bank + 2))
    | .R3 => cpu.memory.read_memory (.InternalData (bank + 3))
    | .R4 => cpu.memory.read_memory (.InternalData (bank + 4))
    | .R5 => cpu.memory.read_memory (.InternalData (bank + 5))
    | .R6 => cpu.memory.read_memory (.InternalData (bank + 6))
    | .R7 => cpu.memory.read_memory (.InternalData (bank + 7))
    | _ => .error "unsupported register"
  | .Bit bit => cpu.loadBit bit
  | .NotBit bit =>
    match cpu.loadBit bit with
    | .error e => .error e
    | .ok b => if b = 1 then .ok 0 else .ok 1
  | .Direct address =>
    -- 128-byte iram of 8051 vs SFR (upper 128 on 8052 only via indirect)
    if address < 128 then
      cpu.memory.read_memory (.InternalData address)
    else if address = 0x81 then .ok cpu.stack_pointer
    else if address = 0x82 then .ok (cpu.data_pointer &&& 0xff)
    else if address = 0x83 then .ok ((cpu.data_pointer >>> 8) &&& 0xff)
    else if address = 0xE0 then .ok cpu.accumulator
    else if address = 0xF0 then .ok cpu.b_register
    else cpu.memory.read_memory (.SpecialFunctionRegister address)
  | .Indirect register =>
    -- R0 or R1 indirect load
    let bank := cpu.bank <<< 3
    match register with
    | .R0 =>
      match cpu.memory.read_memory (.InternalData (bank + 0)) with
      | .error e => .error e
      | .ok address => cpu.memory.read_memory (.InternalData address)
    | .R1 =>
      match cpu.memory.read_memory (.InternalData (bank + 1)) with
      | .error e => .error e
      | .ok address => cpu.memory.read_memory (.InternalData address)
    | _ => .error "unsupported register for indirect load"
  | .IndirectExternal register =>
    let bank := cpu.bank <<< 3
    match register with
    | .R0 =>
      match cpu.memory.read_memory (.InternalData (bank + 0)) with
      | .error e => .error e
      | .ok address => cpu.memory.read_memory (.ExternalData address)
    | .R1 =>
      match cpu.memory.read_memory (.InternalData (bank + 1)) with
      | .error e => .error e
      | .ok address => cpu.memory.read_memory (.ExternalData address)
    | .DPTR => cpu.memory.read_memory (.ExternalData cpu.data_pointer)
    | _ => .error "unsupported register for indirect load (external)"
  | .IndirectCode register =>
    match register with
    | .DPTR =>
      cpu.memory.read_memory
        (.Code ((cpu.data_pointer + cpu.accumulator) % 65536))
    | .PC =>
      cpu.memory.read_memory
        (.Code ((cpu.program_counter + cpu.accumulator + 1) % 65536))
    | _ => .error "unsupported register for indirect load (code)"

/-- CPU::store - perform a store using an addressing mode.  Returns the
updated CPU.  In the RAM collaborator model every error path of the source
occurs before any mutation, so an error leaves the CPU unchanged and the
Except carries no state. -/
def CPU.store (cpu : CPU) (mode : AddressingMode) (data : Nat) :
    Except String CPU :=
  match mode with
  | .Register register =>
    -- 8051 registers occupy the first 32-bytes of memory
    let bank := cpu.bank <<< 3
    match register with
    | .A => .ok { cpu with accumulator := data }
    | .C => .ok { cpu with carry_flag := data }
    | .R0 =>
      match cpu.memory.write_memory (.InternalData (bank + 0)) data with
      | .error e => .error e
      | .ok m => .ok { cpu with memory := m }
    | .R1 =>
      match cpu.memory.write_memory (.InternalData (bank + 1)) data with
      | .error e => .error e
      | .ok m => .ok { cpu with memory := m }
    | .R2 =>
      match cpu.memory.write_memory (.InternalData (bank + 2)) data with
      | .error e => .error e
      | .ok m => .ok { cpu with memory := m }
    | .R3 =>
      match cpu.memory.write_memory (.InternalData (bank + 3)) data with
      | .error e => .error e
      | .ok m => .ok { cpu with memory := m }
    | .R4 =>
      match cpu.memory.write_memory (.InternalData (bank + 4)) data with
      | .error e => .error e
      | .ok m => .ok { cpu with memory := m }
    | .R5 =>
      match cpu.memory.write_memory (.InternalData (bank + 5)) data with
      | .error e => .error e
      | .ok m => .ok { cpu with memory := m }
    | .R6 =>
      match cpu.memory.write_memory (.InternalData (bank + 6)) data with
      | .error e => .error e
      | .ok m => .ok { cpu with memory := m }
    | .R7 =>
      match cpu.memory.write_memory (.InternalData (bank + 7)) data with
      | .error e => .error e
      | .ok m => .ok { cpu with memory := m }
    | _ => .error "unsupported register"
  | .Bit bit =>
    -- 8051 bit values occupy 0x20 to 0x2F
    if bit < 128 then
      match cpu.memory.read_memory (.InternalData (0x20 + (bit >>> 3))) with
      | .error e => .error e
      | .ok octet =>
        let octet :=
          if data ≠ 0 then octet ||| (1 <<< (bit &&& 0x07))
          else octet &&& (255 - (1 <<< (bit &&& 0x07)))
        match cpu.memory.write_memory
            (.InternalData (0x20 + (bit >>> 3))) octet with
        | .error e => .error e
        | .ok m => .ok { cpu with memory := m }
    else
      -- the source writes the literal 1 here, ignoring the data argument
      match cpu.memory.write_memory (.Bit bit) 1 with
      | .error e => .error e
      | .ok m => .ok { cpu with memory := m }
  | .Direct address =>
    if address < 128 then
      match cpu.memory.write_memory (.InternalData address) data with
      | .error e => .error e
      | .ok m => .ok { cpu with memory := m }
    else if address = 0x81 then .ok { cpu with stack_pointer := data }
    else if address = 0x82 then
      .ok { cpu with data_pointer := (cpu.data_pointer &&& 0xff00) ||| data }
    else if address = 0x83 then
      .ok { cpu with data_pointer :=
              (cpu.data_pointer &&& 0x00ff) ||| (data <<< 8) }
    else if address = 0xE0 then .ok { cpu with accumulator := data }
    else if address = 0xF0 then .ok { cpu with b_register := data }
    else
      match cpu.memory.write_memory
          (.SpecialFunctionRegister address) data with
      | .error e => .error e
      | .ok m => .ok { cpu with memory := m }
  | .Indirect register =>
    -- R0 or R1 indirect store
    let bank := cpu.bank <<< 3
    match register with
    | .R0 =>
      match cpu.memory.read_memory (.InternalData (bank + 0)) with
      | .error e => .error e
      | .ok address =>
        match cpu.memory.write_memory (.InternalData address) data with
        | .error e => .error e
        | .ok m => .ok { cpu with memory := m }
    | .R1 =>
      match cpu.memory.read_memory (.InternalData (bank + 1)) with
      | .error e => .error e
      | .ok address =>
        match cpu.memory.write_memory (.InternalData address) data with
        | .error e => .error e
        | .ok m => .ok { cpu with memory := m }
    | _ => .error "unsupported register for indirect store"
  | .IndirectExternal register =>
    let bank := cpu.bank <<< 3
    match register with
    | .R0 =>
      match cpu.memory.read_memory (.InternalData (bank + 0)) with
      | .error e => .error e
      | .ok address =>
        match cpu.memory.write_memory (.ExternalData address) data with
        | .error e => .error e
        | .ok m => .ok { cpu with memory := m }
    | .R1 =>
      match cpu.memory.read_memory (.InternalData (bank + 1)) with
      | .error e => .error e
      | .ok address =>
        match cpu.memory.write_memory (.ExternalData address) data with
        | .error e => .error e
        | .ok m => .ok { cpu with memory := m }
    | .DPTR =>
      match cpu.memory.write_memory (.ExternalData cpu.data_pointer) data with
      | .error e => .error e
      | .ok m => .ok { cpu with memory := m }
    | _ => .error "unsupported register for indirect store"
  | _ => .error "unsupported addressing mode (store)"

/-- Reinterpret a byte as a signed 8-bit offset, mirroring the `as i8` casts
of the source decoder. -/
def as_i8 (b : Nat) : Int :=
  if b % 256 < 128 then (b % 256 : Int) else (b % 256 : Int) - 256

/-- Wrapping 16-bit relative branch: the source computes
`((next_pc as i16) + (offset as i16)) as u16`, which equals the sum taken
modulo 2^16. -/
def relative_jump (npc : Nat) (offset : Int) : Nat :=
  (((npc : Int) + offset).emod 65536).toNat

/-- The opcode dispatch table of CPU::decode_next_instruction, abstracted
over the already-fetched opcode byte: the match of the source, rendered as
a chain of opcode tests in the same order.  Immediate bytes are fetched
from code space at program_counter + 1 and + 2 (u16 wrapping adds). -/
def CPU.decode_op (cpu : CPU) (opcode : Nat) :
    Except String (Instruction × Nat) :=
  -- NOP
  if opcode = 0x00 then .ok (.NOP, 1)
  -- AJMP #address
  else if opcode = 0x01 ∨ opcode = 0x21 ∨ opcode = 0x41 ∨ opcode = 0x61 ∨
      opcode = 0x81 ∨ opcode = 0xA1 ∨ opcode = 0xC1 ∨ opcode = 0xE1 then do
    let arg1 ← cpu.memory.read_memory (.Code ((cpu.program_counter + 1) % 65536))
    .ok (.AJMP (((opcode &&& 0xE0) <<< 3) ||| arg1), 2)
  -- LJMP #address
  else if opcode = 0x02 then do
    let arg1 ← cpu.memory.read_memory (.Code ((cpu.program_counter + 1) % 65536))
    let arg2 ← cpu.memory.read_memory (.Code ((cpu.program_counter + 2) % 65536))
    .ok (.LJMP ((arg1 <<< 8) ||| arg2), 3)
  -- INC A
  else if opcode = 0x04 then .ok (.INC (.Register .A), 1)
  -- INC iram addr
  else if opcode = 0x05 then do
    let arg1 ← cpu.memory.read_memory (.Code ((cpu.program_counter + 1) % 65536))
    .ok (.INC (.Direct arg1), 2)
  -- INC @R0 / @R1
  else if opcode = 0x06 then .ok (.INC (.Indirect .R0), 1)
  else if opcode = 0x07 then .ok (.INC (.Indirect .R1), 1)
  -- INC Rx
  else if 0x08 ≤ opcode ∧ opcode ≤ 0x0F then
    .ok (.INC (.Register (register_from_opcode opcode)), 1)
  -- ACALL #address
  else if opcode = 0x11 ∨ opcode = 0x31 ∨ opcode = 0x51 ∨ opcode = 0x71 ∨
      opcode = 0x91 ∨ opcode = 0xB1 ∨ opcode = 0xD1 ∨ opcode = 0xF1 then do
    let arg1 ← cpu.memory.read_memory (.Code ((cpu.program_counter + 1) % 65536))
    .ok (.ACALL (((opcode &&& 0xE0) <<< 3) ||| arg1), 2)
  -- LCALL #address
  else if opcode = 0x12 then do
    let arg1 ← cpu.memory.read_memory (.Code ((cpu.program_counter + 1) % 65536))
    let arg2 ← cpu.memory.read_memory (.Code ((cpu.program_counter + 2) % 65536))
    .ok (.LCALL ((arg1 <<< 8) ||| arg2), 3)
  -- DEC A
  else if opcode = 0x14 then .ok (.DEC (.Register .A), 1)
  -- DEC iram addr
  else if opcode = 0x15 then do
    let arg1 ← cpu.memory.read_memory (.Code ((cpu.program_counter + 1) % 65536))
    .ok (.DEC (.Direct arg1), 2)
  -- DEC @R0 / @R1
  else if opcode = 0x16 then .ok (.DEC (.Indirect .R0), 1)
  else if opcode = 0x17 then .ok (.DEC (.Indirect .R1), 1)
  -- DEC Rx
  else if 0x18 ≤ opcode ∧ opcode ≤ 0x1F then
    .ok (.DEC (.Register (register_from_opcode opcode)), 1)
  -- RET
  else if opcode = 0x22 then .ok (.RET, 1)
  -- ADD A, #data
  else if opcode = 0x24 then do
    let arg1 ← cpu.memory.read_memory (.Code ((cpu.program_counter + 1) % 65536))
    .ok (.ADD (.Immediate arg1), 2)
  -- ADD A, iram addr
  else if opcode = 0x25 then do
    let arg1 ← cpu.memory.read_memory (.Code ((cpu.program_counter + 1) % 65536))
    .ok (.ADD (.Direct arg1), 2)
  -- ADD A, @R0 / @R1
  else if opcode = 0x26 then .ok (.ADD (.Indirect .R0), 1)
  else if opcode = 0x27 then .ok (.ADD (.Indirect .R1), 1)
  -- ADD A, Rx
  else if 0x28 ≤ opcode ∧ opcode ≤ 0x2F then
    .ok (.ADD (.Register (register_from_opcode opcode)), 1)
  -- JNB bit addr, reladdr
  else if opcode = 0x30 then do
    let arg1 ← cpu.memory.read_memory (.Code ((cpu.program_counter + 1) % 65536))
    let arg2 ← cpu.memory.read_memory (.Code ((cpu.program_counter + 2) % 65536))
    .ok (.JNB (.Bit arg1) (as_i8 arg2), 3)
  -- RETI
  else if opcode = 0x32 then .ok (.RETI, 1)
  -- ADDC A, #data
  else if opcode = 0x34 then do
    let arg1 ← cpu.memory.read_memory (.Code ((cpu.program_counter + 1) % 65536))
    .ok (.ADDC (.Immediate arg1), 2)
  -- ADDC A, iram addr
  else if opcode = 0x35 then do
    let arg1 ← cpu.memory.read_memory (.Code ((cpu.program_counter + 1) % 65536))
    .ok (.ADDC (.Direct arg1), 2)
  -- ADDC A, @R0 / @R1
  else if opcode = 0x36 then .ok (.ADDC (.Indirect .R0), 1)
  else if opcode = 0x37 then .ok (.ADDC (.Indirect .R1), 1)
  -- ADDC A, Rx
  else if 0x38 ≤ opcode ∧ opcode ≤ 0x3F then
    .ok (.ADDC (.Register (register_from_opcode opcode)), 1)
  -- JC reladdr
  else if opcode = 0x40 then do
    let arg1 ← cpu.memory.read_memory (.Code ((cpu.program_counter + 1) % 65536))
    .ok (.JC (as_i8 arg1), 2)
  -- ORL iram addr, A
  else if opcode = 0x42 then do
    let arg1 ← cpu.memory.read_memory (.Code ((cpu.program_counter + 1) % 65536))
    .ok (.ORL (.Direct arg1) (.Register .A), 2)
  -- ORL iram addr, #data
  else if opcode = 0x43 then do
    let arg1 ← cpu.memory.read_memory (.Code ((cpu.program_counter + 1) % 65536))
    let arg2 ← cpu.memory.read_memory (.Code ((cpu.program_counter + 2) % 65536))
    .ok (.ORL (.Direct arg1) (.Immediate arg2), 3)
  -- ORL A, #data
  else if opcode = 0x44 then do
    let arg1 ← cpu.memory.read_memory (.Code ((cpu.program_counter + 1) % 65536))
    .ok (.ORL (.Register .A) (.Immediate arg1), 2)
  -- ORL A, iram addr
  else if opcode = 0x45 then do
    let arg1 ← cpu.memory.read_memory (.Code ((cpu.program_counter + 1) % 65536))
    .ok (.ORL (.Register .A) (.Direct arg1), 2)
  -- ORL A, @R0 / @R1
  else if opcode = 0x46 then .ok (.ORL (.Register .A) (.Indirect .R0), 1)
  else if opcode = 0x47 then .ok (.ORL (.Register .A) (.Indirect .R1), 1)
  -- ORL A, Rx
  else if 0x48 ≤ opcode ∧ opcode ≤ 0x4F then
    .ok (.ORL (.Register .A) (.Register (register_from_opcode opcode)), 1)
  -- JNC reladdr
  else if opcode = 0x50 then do
    let arg1 ← cpu.memory.read_memory (.Code ((cpu.program_counter + 1) % 65536))
    .ok (.JNC (as_i8 arg1), 2)
  -- ANL iram addr, A
  else if opcode = 0x52 then do
    let arg1 ← cpu.memory.read_memory (.Code ((cpu.program_counter + 1) % 65536))
    .ok (.ANL (.Direct arg1) (.Register .A), 2)
  -- JZ
  else if opcode = 0x60 then do
    let arg1 ← cpu.memory.read_memory (.Code ((cpu.program_counter + 1) % 65536))
    .ok (.JZ (as_i8 arg1), 2)
  -- JNZ
  else if opcode = 0x70 then do
    let arg1 ← cpu.memory.read_memory (.Code ((cpu.program_counter + 1) % 65536))
    .ok (.JNZ (as_i8 arg1), 2)
  -- ORL C, bit addr
  else if opcode = 0x72 then do
    let arg1 ← cpu.memory.read_memory (.Code ((cpu.program_counter + 1) % 65536))
    .ok (.ORL (.Register .C) (.Bit arg1), 2)
  -- MOV A, #data
  else if opcode = 0x74 then do
    let arg1 ← cpu.memory.read_memory (.Code ((cpu.program_counter + 1) % 65536))
    .ok (.MOV (.Register .A) (.Immediate arg1), 2)
  -- MOV iram addr, #data (source comment says bit addr, C)
  else if opcode = 0x75 then do
    let arg1 ← cpu.memory.read_memory (.Code ((cpu.program_counter + 1) % 65536))
    let arg2 ← cpu.memory.read_memory (.Code ((cpu.program_counter + 2) % 65536))
    .ok (.MOV (.Direct arg1) (.Immediate arg2), 3)
  -- MOV @R0, #data / @R1, #data
  else if opcode = 0x76 then do
    let arg1 ← cpu.memory.read_memory (.Code ((cpu.program_counter + 1) % 65536))
    .ok (.MOV (.Indirect .R0) (.Immediate arg1), 2)
  else if opcode = 0x77 then do
    let arg1 ← cpu.memory.read_memory (.Code ((cpu.program_counter + 1) % 65536))
    .ok (.MOV (.Indirect .R1) (.Immediate arg1), 2)
  -- MOV Rx, #data
  else if 0x78 ≤ opcode ∧ opcode ≤ 0x7F then do
    let arg1 ← cpu.memory.read_memory (.Code ((cpu.program_counter + 1) % 65536))
    .ok (.MOV (.Register (register_from_opcode opcode)) (.Immediate arg1), 2)
  -- SJMP reladdr
  else if opcode = 0x80 then do
    let arg1 ← cpu.memory.read_memory (.Code ((cpu.program_counter + 1) % 65536))
    .ok (.SJMP (as_i8 arg1), 2)
  -- MOVC A, @A+PC
  else if opcode = 0x83 then .ok (.MOVC (.IndirectCode .PC), 1)
  -- MOV iram addr, iram addr (destination is the second byte)
  else if opcode = 0x85 then do
    let arg1 ← cpu.memory.read_memory (.Code ((cpu.program_counter + 1) % 65536))
    let arg2 ← cpu.memory.read_memory (.Code ((cpu.program_counter + 2) % 65536))
    .ok (.MOV (.Direct arg2) (.Direct arg1), 3)
  -- MOV iram addr, @R0 / @R1
  else if opcode = 0x86 then do
    let arg1 ← cpu.memory.read_memory (.Code ((cpu.program_counter + 1) % 65536))
    .ok (.MOV (.Direct arg1) (.Indirect .R0), 2)
  else if opcode = 0x87 then do
    let arg1 ← cpu.memory.read_memory (.Code ((cpu.program_counter + 1) % 65536))
    .ok (.MOV (.Direct arg1) (.Indirect .R1), 2)
  -- MOV iram addr, Rx
  else if 0x88 ≤ opcode ∧ opcode ≤ 0x8F then do
    let arg1 ← cpu.memory.read_memory (.Code ((cpu.program_counter + 1) % 65536))
    .ok (.MOV (.Direct arg1) (.Register (register_from_opcode opcode)), 2)
  -- MOV DPTR, #data16
  else if opcode = 0x90 then do
    let arg1 ← cpu.memory.read_memory (.Code ((cpu.program_counter + 1) % 65536))
    let arg2 ← cpu.memory.read_memory (.Code ((cpu.program_counter + 2) % 65536))
    .ok (.LoadDptr ((arg1 <<< 8) ||| arg2), 3)
  -- MOV bit addr, C
  else if opcode = 0x92 then do
    let arg1 ← cpu.memory.read_memory (.Code ((cpu.program_counter + 1) % 65536))
    .ok (.MOV (.Bit arg1) (.Register .C), 2)
  -- MOVC A, @A+DPTR
  else if opcode = 0x93 then .ok (.MOVC (.IndirectCode .DPTR), 1)
  -- SUBB A, #data
  else if opcode = 0x94 then do
    let arg1 ← cpu.memory.read_memory (.Code ((cpu.program_counter + 1) % 65536))
    .ok (.SUBB (.Immediate arg1), 2)
  -- SUBB A, iram addr
  else if opcode = 0x95 then do
    let arg1 ← cpu.memory.read_memory (.Code ((cpu.program_counter + 1) % 65536))
    .ok (.SUBB (.Direct arg1), 2)
  -- SUBB A, @R0 / @R1
  else if opcode = 0x96 then .ok (.SUBB (.Indirect .R0), 1)
  else if opcode = 0x97 then .ok (.SUBB (.Indirect .R1), 1)
  -- SUBB A, Rx
  else if 0x98 ≤ opcode ∧ opcode ≤ 0x9F then
    .ok (.SUBB (.Register (register_from_opcode opcode)), 1)
  -- ORL C, /bit addr
  else if opcode = 0xA0 then do
    let arg1 ← cpu.memory.read_memory (.Code ((cpu.program_counter + 1) % 65536))
    .ok (.ORL (.Register .C) (.NotBit arg1), 2)
  -- MOV C, bit addr
  else if opcode = 0xA2 then do
    let arg1 ← cpu.memory.read_memory (.Code ((cpu.program_counter + 1) % 65536))
    .ok (.MOV (.Register .C) (.Bit arg1), 2)
  -- INC DPTR
  else if opcode = 0xA3 then .ok (.INC (.Register .DPTR), 1)
  -- MOV @R0, iram addr / @R1, iram addr
  else if opcode = 0xA6 then do
    let arg1 ← cpu.memory.read_memory (.Code ((cpu.program_counter + 1) % 65536))
    .ok (.MOV (.Indirect .R0) (.Direct arg1), 2)
  else if opcode = 0xA7 then do
    let arg1 ← cpu.memory.read_memory (.Code ((cpu.program_counter + 1) % 65536))
    .ok (.MOV (.Indirect .R1) (.Direct arg1), 2)
  -- MOV Rx, iram addr
  else if 0xA8 ≤ opcode ∧ opcode ≤ 0xAF then do
    let arg1 ← cpu.memory.read_memory (.Code ((cpu.program_counter + 1) % 65536))
    .ok (.MOV (.Register (register_from_opcode opcode)) (.Direct arg1), 2)
  -- CJNE A, #data, reladdr
  else if opcode = 0xB4 then do
    let arg1 ← cpu.memory.read_memory (.Code ((cpu.program_counter + 1) % 65536))
    let arg2 ← cpu.memory.read_memory (.Code ((cpu.program_counter + 2) % 65536))
    .ok (.CJNE (.Register .A) (.Immediate arg1) (as_i8 arg2), 3)
  -- CJNE A, iram addr, reladdr
  else if opcode = 0xB5 then do
    let arg1 ← cpu.memory.read_memory (.Code ((cpu.program_counter + 1) % 65536))
    let arg2 ← cpu.memory.read_memory (.Code ((cpu.program_counter + 2) % 65536))
    .ok (.CJNE (.Register .A) (.Direct arg1) (as_i8 arg2), 3)
  -- CJNE @R0, #data, reladdr / @R1
  else if opcode = 0xB6 then do
    let arg1 ← cpu.memory.read_memory (.Code ((cpu.program_counter + 1) % 65536))
    let arg2 ← cpu.memory.read_memory (.Code ((cpu.program_counter + 2) % 65536))
    .ok (.CJNE (.Indirect .R0) (.Immediate arg1) (as_i8 arg2), 3)
  else if opcode = 0xB7 then do
    let arg1 ← cpu.memory.read_memory (.Code ((cpu.program_counter + 1) % 65536))
    let arg2 ← cpu.memory.read_memory (.Code ((cpu.program_counter + 2) % 65536))
    .ok (.CJNE (.Indirect .R1) (.Immediate arg1) (as_i8 arg2), 3)
  -- CJNE Rx, #data, reladdr
  else if 0xB8 ≤ opcode ∧ opcode ≤ 0xBF then do
    let arg1 ← cpu.memory.read_memory (.Code ((cpu.program_counter + 1) % 65536))
    let arg2 ← cpu.memory.read_memory (.Code ((cpu.program_counter + 2) % 65536))
    .ok (.CJNE (.Register (register_from_opcode opcode))
          (.Immediate arg1) (as_i8 arg2), 3)
  -- PUSH
  else if opcode = 0xC0 then do
    let arg1 ← cpu.memory.read_memory (.Code ((cpu.program_counter + 1) % 65536))
    .ok (.PUSH (.Direct arg1), 2)
  -- CLR bit addr
  else if opcode = 0xC2 then do
    let arg1 ← cpu.memory.read_memory (.Code ((cpu.program_counter + 1) % 65536))
    .ok (.CLR (.Bit arg1), 2)
  -- CLR C
  else if opcode = 0xC3 then .ok (.CLR (.Register .C), 1)
  -- POP
  else if opcode = 0xD0 then do
    let arg1 ← cpu.memory.read_memory (.Code ((cpu.program_counter + 1) % 65536))
    .ok (.POP (.Direct arg1), 2)
  -- SETB bit addr
  else if opcode = 0xD2 then do
    let arg1 ← cpu.memory.read_memory (.Code ((cpu.program_counter + 1) % 65536))
    .ok (.SETB (.Bit arg1), 2)
  -- SETB C
  else if opcode = 0xD3 then .ok (.SETB (.Register .C), 1)
  -- DJNZ iram addr, reladdr
  else if opcode = 0xD5 then do
    let arg1 ← cpu.memory.read_memory (.Code ((cpu.program_counter + 1) % 65536))
    let arg2 ← cpu.memory.read_memory (.Code ((cpu.program_counter + 2) % 65536))
    .ok (.DJNZ (.Direct arg1) (as_i8 arg2), 3)
  -- DJNZ Rx, reladdr
  else if 0xD8 ≤ opcode ∧ opcode ≤ 0xDF then do
    let arg1 ← cpu.memory.read_memory (.Code ((cpu.program_counter + 1) % 65536))
    .ok (.DJNZ (.Register (register_from_opcode opcode)) (as_i8 arg1), 2)
  -- MOVX A, @DPTR / @R0 / @R1
  else if opcode = 0xE0 then
    .ok (.MOVX (.Register .A) (.IndirectExternal .DPTR), 1)
  else if opcode = 0xE2 then
    .ok (.MOVX (.Register .A) (.IndirectExternal .R0), 1)
  else if opcode = 0xE3 then
    .ok (.MOVX (.Register .A) (.IndirectExternal .R1), 1)
  -- CLR A
  else if opcode = 0xE4 then .ok (.CLR (.Register .A), 1)
  -- MOV A, iram addr
  else if opcode = 0xE5 then do
    let arg1 ← cpu.memory.read_memory (.Code ((cpu.program_counter + 1) % 65536))
    .ok (.MOV (.Register .A) (.Direct arg1), 2)
  -- MOV A, @R0 / @R1
  else if opcode = 0xE6 then .ok (.MOV (.Register .A) (.Indirect .R0), 1)
  else if opcode = 0xE7 then .ok (.MOV (.Register .A) (.Indirect .R1), 1)
  -- MOV A, Rx
  else if 0xE8 ≤ opcode ∧ opcode ≤ 0xEF then
    .ok (.MOV (.Register .A) (.Register (register_from_opcode opcode)), 1)
  -- MOVX @DPTR, A / @R0, A / @R1, A
  else if opcode = 0xF0 then
    .ok (.MOVX (.IndirectExternal .DPTR) (.Register .A), 1)
  else if opcode = 0xF2 then
    .ok (.MOVX (.IndirectExternal .R0) (.Register .A), 1)
  else if opcode = 0xF3 then
    .ok (.MOVX (.IndirectExternal .R1) (.Register .A), 1)
  -- CPL A
  else if opcode = 0xF4 then .ok (.CPL (.Register .A), 1)
  -- MOV iram addr, A
  else if opcode = 0xF5 then do
    let arg1 ← cpu.memory.read_memory (.Code ((cpu.program_counter + 1) % 65536))
    .ok (.MOV (.Direct arg1) (.Register .A), 2)
  -- MOV @R0, A / @R1, A
  else if opcode = 0xF6 then .ok (.MOV (.Indirect .R0) (.Register .A), 1)
  else if opcode = 0xF7 then .ok (.MOV (.Indirect .R1) (.Register .A), 1)
  -- MOV Rx, A
  else if 0xF8 ≤ opcode ∧ opcode ≤ 0xFF then
    .ok (.MOV (.Register (register_from_opcode opcode)) (.Register .A), 1)
  -- catch unimplemented
  else .error "unimplemented instruction (decode)"

/-- CPU::decode_next_instruction - fetch the opcode byte at the program
counter and dispatch on it, returning the structured instruction and its
length in bytes. -/
def CPU.decode_next_instruction (cpu : CPU) :
    Except String (Instruction × Nat) := do
  let opcode ← cpu.memory.read_memory (.Code cpu.program_counter)
  cpu.decode_op opcode

/-- Outcome of the dispatch part of CPU::step.  earlyErr models a `?`
propagation (or a panic) out of a match arm: the program counter commit at
the bottom of step is skipped.  done models falling through to the commit:
the result (which may still be an error, e.g. a failed tail-position store
or an unimplemented instruction) is returned after
`self.program_counter = next_program_counter` executes. -/
inductive ExecOut where
  | earlyErr (e : String) (cpu : CPU)
  | done (r : Except String Unit) (cpu : CPU) (npc : Nat)

/-- The CPU carried by an ExecOut. -/
def ExecOut.cpu : ExecOut → CPU
  | .earlyErr _ c => c
  | .done _ c _ => c

/-- The dispatch match of CPU::step: executes one decoded instruction
against the state, threading the candidate next program counter npc
(npc starts as pc + length and may be replaced by control flow).
Wrapping machine arithmetic of the source is made explicit with % 256 and
% 65536; the panic on stack overflow is modelled as an early error. -/
def CPU.exec (cpu : CPU) (instruction : Instruction) (npc : Nat) : ExecOut :=
  match instruction with
  | .ADD operand2 =>
    match cpu.load operand2 with
    | .error e => .earlyErr e cpu
    | .ok data =>
      let result := cpu.accumulator + data
      let half_result := (cpu.accumulator &&& 0xf) + (data &&& 0xf)
      let signed_result := (cpu.accumulator &&& 0x7f) + (data &&& 0x7f)
      let cpu := { cpu with accumulator := result &&& 0xff }
      let cpu := { cpu with carry_flag := if result > 255 then 1 else 0 }
      let cpu := { cpu with auxillary_carry_flag :=
                      if half_result > 16 then 1 else 0 }
      let cpu := { cpu with overflow_flag :=
                      if signed_result > 127 then
                        (if cpu.carry_flag = 1 then 0 else 1)
                      else cpu.carry_flag }
      .done (.ok ()) cpu npc
  | .ADDC operand2 =>
    match cpu.load operand2 with
    | .error e => .earlyErr e cpu
    | .ok data =>
      let result := cpu.accumulator + data + (cpu.carry_flag &&& 0x1)
      let half_result :=
        (cpu.accumulator &&& 0xf) + (data &&& 0xf) + (cpu.carry_flag &&& 0x1)
      let signed_result :=
        (cpu.accumulator &&& 0x7f) + (data &&& 0x7f) + (cpu.carry_flag &&& 0x1)
      let cpu := { cpu with accumulator := result &&& 0xff }
      let cpu := { cpu with carry_flag := if result > 255 then 1 else 0 }
      let cpu := { cpu with auxillary_carry_flag :=
                      if half_result > 16 then 1 else 0 }
      let cpu := { cpu with overflow_flag :=
                      if signed_result > 127 then
                        (if cpu.carry_flag = 1 then 0 else 1)
                      else cpu.carry_flag }
      .done (.ok ()) cpu npc
  | .AJMP address =>
    .done (.ok ()) cpu ((cpu.program_counter &&& 0xF800) ||| address)
  | .ANL operand1 operand2 =>
    match cpu.load operand1 with
    | .error e => .earlyErr e cpu
    | .ok d1 =>
      match cpu.load operand2 with
      | .error e => .earlyErr e cpu
      | .ok d2 =>
        match cpu.store operand1 (d1 &&& d2) with
        | .error e => .done (.error e) cpu npc
        | .ok cpu => .done (.ok ()) cpu npc
  | .CJNE operand1 operand2 offset =>
    match cpu.load operand1 with
    | .error e => .earlyErr e cpu
    | .ok d1 =>
      match cpu.load operand2 with
      | .error e => .earlyErr e cpu
      | .ok d2 =>
        let cpu := { cpu with carry_flag := if d1 < d2 then 1 else 0 }
        .done (.ok ()) cpu
          (if d1 ≠ d2 then relative_jump npc offset else npc)
  | .CLR address =>
    match cpu.store address 0 with
    | .error e => .done (.error e) cpu npc
    | .ok cpu => .done (.ok ()) cpu npc
  | .DEC address =>
    match cpu.load address with
    | .error e => .earlyErr e cpu
    | .ok data =>
      match cpu.store address ((data + 255) % 256) with
      | .error e => .done (.error e) cpu npc
      | .ok cpu => .done (.ok ()) cpu npc
  | .DJNZ address offset =>
    match cpu.load address with
    | .error e => .earlyErr e cpu
    | .ok data =>
      let data := (data + 255) % 256
      match cpu.store address data with
      | .error e => .earlyErr e cpu
      | .ok cpu =>
        .done (.ok ()) cpu
          (if data ≠ 0 then relative_jump npc offset else npc)
  | .INC address =>
    match address with
    | .Register .DPTR =>
      .done (.ok ()) { cpu with data_pointer := (cpu.data_pointer + 1) % 65536 }
        npc
    | _ =>
      match cpu.load address with
      | .error e => .earlyErr e cpu
      | .ok data =>
        match cpu.store address ((data + 1) % 256) with
        | .error e => .done (.error e) cpu npc
        | .ok cpu => .done (.ok ()) cpu npc
  | .JC address =>
    .done (.ok ()) cpu
      (if cpu.carry_flag ≠ 0 then relative_jump npc address else npc)
  | .JNB bit address =>
    match cpu.load bit with
    | .error e => .earlyErr e cpu
    | .ok data =>
      .done (.ok ()) cpu (if data = 0 then relative_jump npc address else npc)
  | .JNC address =>
    .done (.ok ()) cpu
      (if cpu.carry_flag = 0 then relative_jump npc address else npc)
  | .JNZ address =>
    .done (.ok ()) cpu
      (if cpu.accumulator ≠ 0 then relative_jump npc address else npc)
  | .JZ address =>
    .done (.ok ()) cpu
      (if cpu.accumulator = 0 then relative_jump npc address else npc)
  | .LCALL address =>
    if cpu.stack_pointer ≥ 127 then
      -- the source panics here; the abort is modelled as an early error
      .earlyErr "stack overflow in LCALL" cpu
    else
      match cpu.memory.write_memory
          (.InternalData (cpu.stack_pointer + 1)) (npc &&& 0xff) with
      | .error e => .earlyErr e cpu
      | .ok m1 =>
        match m1.write_memory
            (.InternalData (cpu.stack_pointer + 2)) ((npc >>> 8) &&& 0xff) with
        | .error e => .earlyErr e { cpu with memory := m1 }
        | .ok m2 =>
          .done (.ok ())
            { cpu with memory := m2,
                       stack_pointer := cpu.stack_pointer + 2 } address
  | .LJMP address => .done (.ok ()) cpu address
  | .MOV operand1 operand2 =>
    match cpu.load operand2 with
    | .error e => .earlyErr e cpu
    | .ok data =>
      match cpu.store operand1 data with
      | .error e => .done (.error e) cpu npc
      | .ok cpu => .done (.ok ()) cpu npc
  | .MOVC operand =>
    match cpu.load operand with
    | .error e => .earlyErr e cpu
    | .ok data => .done (.ok ()) { cpu with accumulator := data } npc
  | .MOVX operand1 operand2 =>
    match cpu.load operand2 with
    | .error e => .earlyErr e cpu
    | .ok data =>
      match cpu.store operand1 data with
      | .error e => .done (.error e) cpu npc
      | .ok cpu => .done (.ok ()) cpu npc
  | .NOP => .done (.ok ()) cpu npc
  | .ORL operand1 operand2 =>
    match cpu.load operand1 with
    | .error e => .earlyErr e cpu
    | .ok d1 =>
      match cpu.load operand2 with
      | .error e => .earlyErr e cpu
      | .ok d2 =>
        match cpu.store operand1 (d1 ||| d2) with
        | .error e => .done (.error e) cpu npc
        | .ok cpu => .done (.ok ()) cpu npc
  | .POP address =>
    match cpu.memory.read_memory (.InternalData cpu.stack_pointer) with
    | .error e => .earlyErr e cpu
    | .ok data =>
      let cpu := { cpu with stack_pointer := (cpu.stack_pointer + 255) % 256 }
      match cpu.store address data with
      | .error e => .done (.error e) cpu npc
      | .ok cpu => .done (.ok ()) cpu npc
  | .PUSH address =>
    if cpu.stack_pointer ≥ 127 then
      -- the source panics here; the abort is modelled as an early error
      .earlyErr "stack overflow in PUSH" cpu
    else
      match cpu.load address with
      | .error e => .earlyErr e cpu
      | .ok data =>
        match cpu.memory.write_memory
            (.InternalData (cpu.stack_pointer + 1)) data with
        | .error e => .earlyErr e cpu
        | .ok m =>
          .done (.ok ())
            { cpu with memory := m, stack_pointer := cpu.stack_pointer + 1 }
            npc
  | .RET =>
    match cpu.memory.read_memory (.InternalData cpu.stack_pointer) with
    | .error e => .earlyErr e cpu
    | .ok high =>
      match cpu.memory.read_memory
          (.InternalData ((cpu.stack_pointer + 255) % 256)) with
      | .error e => .earlyErr e cpu
      | .ok low =>
        .done (.ok ())
          { cpu with stack_pointer := (cpu.stack_pointer + 254) % 256 }
          ((high <<< 8) ||| low)
  | .RETI =>
    match cpu.memory.read_memory (.InternalData cpu.stack_pointer) with
    | .error e => .earlyErr e cpu
    | .ok high =>
      match cpu.memory.read_memory
          (.InternalData ((cpu.stack_pointer + 255) % 256)) with
      | .error e => .earlyErr e cpu
      | .ok low =>
        .done (.ok ())
          { cpu with stack_pointer := (cpu.stack_pointer + 254) % 256 }
          ((high <<< 8) ||| low)
  | .SETB address =>
    match cpu.store address 1 with
    | .error e => .done (.error e) cpu npc
    | .ok cpu => .done (.ok ()) cpu npc
  | .SJMP offset => .done (.ok ()) cpu (relative_jump npc offset)
  | .SUBB operand2 =>
    match cpu.load operand2 with
    | .error e => .earlyErr e cpu
    | .ok data =>
      -- u16 wrapping subtraction A - data - carry
      let result :=
        (131072 + cpu.accumulator - data - (cpu.carry_flag &&& 1)) % 65536
      let cpu := { cpu with auxillary_carry_flag :=
                      if (data &&& 0xf) + (cpu.carry_flag &&& 1)
                          > (cpu.accumulator &&& 0xf) then 1 else 0 }
      -- the source adds data + carry in u8, wrapping on overflow
      let cpu := { cpu with carry_flag :=
                      if (data + (cpu.carry_flag &&& 1)) % 256
                          > cpu.accumulator then 1 else 0 }
      -- result reinterpreted as i16
      let cpu := { cpu with overflow_flag :=
                      if 127 < result ∧ result < 65408 then 1 else 0 }
      let cpu := { cpu with accumulator := result % 256 }
      .done (.ok ()) cpu npc
  | .LoadDptr a => .done (.ok ()) { cpu with data_pointer := a } npc
  | _ => .done (.error "unimplemented instruction (execute)") cpu npc

/-- CPU::step - decode, compute the candidate next program counter, dispatch,
then unconditionally commit the program counter before returning the dispatch
result.  A decode error (or an early return out of a dispatch arm) skips the
commit. -/
def CPU.step (cpu : CPU) : Except String Unit × CPU :=
  match cpu.decode_next_instruction with
  | .error e => (.error e, cpu)
  | .ok (instruction, length) =>
    let npc := (cpu.program_counter + length) % 65536
    match cpu.exec instruction npc with
    | .earlyErr e c => (.error e, c)
    | .done r c npc2 => (r, { c with program_counter := npc2 })

/-! Concrete machines used to evaluate the claims. -/

/-- A memory whose every cell is zero. -/
def zeroMem : Mem :=
  { code := fun _ => 0
    xram := fun _ => 0
    iram := fun _ => 0
    sfr := fun _ => 0
    bits := fun _ => 0 }

/-- A freshly constructed CPU whose code memory holds the single byte op at
address 0. -/
def opcodeCpu (op : Nat) : CPU :=
  CPU.new { zeroMem with code := fun a => if a = 0 then op else 0 }

/-- A freshly constructed CPU whose code memory holds the two bytes op, arg
at addresses 0 and 1. -/
def twoByteCpu (op arg : Nat) : CPU :=
  CPU.new
    { zeroMem with
        code := fun a => if a = 0 then op else if a = 1 then arg else 0 }

/-- Claim C1: the decoder is claimed to return a structured pair for every
opcode of the 8051 ISA, with a Decode error only outside the ISA.  Evaluating
the code shows that the listed ISA opcodes 0xA4 (MUL AB), 0x84 (DIV AB),
0xC4 (SWAP A), 0x03 (RR A), 0x23 (RL A), 0x82 (ANL C,bit), 0xD4 (DA A),
0x73 (JMP @A+DPTR), 0x20 (JB), 0x10 (JBC) and 0xC5 (XCH A,dir) are all
rejected with the decode error string, so the claim fails on the code; the
program counter is indeed left unchanged by the failing step. -/
theorem c1_decoder_rejects_isa_opcodes :
    (opcodeCpu 0xA4).decode_next_instruction =
      .error "unimplemented instruction (decode)" ∧
    (opcodeCpu 0xA4).step =
      (.error "unimplemented instruction (decode)", opcodeCpu 0xA4) ∧
    (opcodeCpu 0x84).decode_next_instruction =
      .error "unimplemented instruction (decode)" ∧
    (opcodeCpu 0xC4).decode_next_instruction =
      .error "unimplemented instruction (decode)" ∧
    (opcodeCpu 0x03).decode_next_instruction =
      .error "unimplemented instruction (decode)" ∧
    (opcodeCpu 0x23).decode_next_instruction =
      .error "unimplemented instruction (decode)" ∧
    (opcodeCpu 0x82).decode_next_instruction =
      .error "unimplemented instruction (decode)" ∧
    (opcodeCpu 0xD4).decode_next_instruction =
      .error "unimplemented instruction (decode)" ∧
    (opcodeCpu 0x73).decode_next_instruction =
      .error "unimplemented instruction (decode)" ∧
    (opcodeCpu 0x20).decode_next_instruction =
      .error "unimplemented instruction (decode)" ∧
    (opcodeCpu 0x10).decode_next_instruction =
      .error "unimplemented instruction (decode)" ∧
    (opcodeCpu 0xC5).decode_next_instruction =
      .error "unimplemented instruction (decode)" :=
  ⟨rfl, rfl, rfl, rfl, rfl, rfl, rfl, rfl, rfl, rfl, rfl, rfl⟩

/-- Claim C2 counterexample: opcode 0x11 decodes to ACALL, whose execution
fails with the unimplemented-instruction error, yet the program counter is
committed and advances from 0 to 2, refuting the claim that every error
surfaced by step leaves the program counter at its pre-step value. -/
theorem c2_counterexample :
    (opcodeCpu 0x11).program_counter = 0 ∧
    ((opcodeCpu 0x11).step).1 = .error "unimplemented instruction (execute)" ∧
    ((opcodeCpu 0x11).step).2.program_counter = 2 :=
  ⟨rfl, rfl, rfl⟩

/-- Claim C2 (amended): the program counter commit is skipped only when the
error is raised before the dispatch falls through - in particular a decode
error leaves the whole CPU state unchanged - while an error produced as the
final value of a dispatch arm (such as the unimplemented-instruction error
for a decoded ACALL) is surfaced after the program counter has been
committed to the candidate pc + length. -/
theorem c2_amended :
    (∀ (cpu : CPU) (e : String),
        cpu.decode_next_instruction = .error e → cpu.step = (.error e, cpu)) ∧
    (∀ (cpu : CPU) (a l : Nat),
        cpu.decode_next_instruction = .ok (.ACALL a, l) →
        cpu.step =
          (.error "unimplemented instruction (execute)",
            { cpu with
                program_counter := (cpu.program_counter + l) % 65536 })) := by
  constructor
  · intro cpu e h
    simp [CPU.step, h]
  · intro cpu a l h
    simp [CPU.step, h, CPU.exec]

/-- Claim C2 witness: the amended theorem applied to the two concrete
machines, an unknown opcode 0xA5 and the ACALL opcode 0x11. -/
theorem c2_amended_witness :
    (opcodeCpu 0xA5).step =
      (.error "unimplemented instruction (decode)", opcodeCpu 0xA5) ∧
    (opcodeCpu 0x11).step =
      (.error "unimplemented instruction (execute)",
        { opcodeCpu 0x11 with program_counter := (0 + 2) % 65536 }) :=
  ⟨c2_amended.1 (opcodeCpu 0xA5) _ rfl, c2_amended.2 (opcodeCpu 0x11) 0 2 rfl⟩

/-- Claim C3: the claim (and the specification scenario S3) require the
auxiliary carry to be set when the low-nibble sum exceeds 15, so that
A = 0x7F, ADD A,#1 sets aux_carry = 1.  The code compares the nibble sum
against 16 instead of 15, so the evaluation yields aux_carry = 0; the
accumulator, carry, overflow and program counter do match the claim. -/
theorem c3_add_aux_carry_bug :
    (({ twoByteCpu 0x24 0x01 with accumulator := 0x7F }).step).1 = .ok () ∧
    (({ twoByteCpu 0x24 0x01 with
          accumulator := 0x7F }).step).2.accumulator = 0x80 ∧
    (({ twoByteCpu 0x24 0x01 with
          accumulator := 0x7F }).step).2.carry_flag = 0 ∧
    (({ twoByteCpu 0x24 0x01 with
          accumulator := 0x7F }).step).2.auxillary_carry_flag = 0 ∧
    (({ twoByteCpu 0x24 0x01 with
          accumulator := 0x7F }).step).2.overflow_flag = 1 ∧
    (({ twoByteCpu 0x24 0x01 with
          accumulator := 0x7F }).step).2.program_counter = 2 :=
  ⟨rfl, rfl, rfl, rfl, rfl, rfl⟩

/-- Claim C4: two evaluations refute the claimed SUBB flag rules on the code.
With A = 0x80, SUBB A,#1 (carry clear) the signed subtraction is
-128 - 1 = -129, so the claim requires overflow = 1, but the code computes
overflow from the unsigned 16-bit difference 0x7F and yields 0.  With A = 0,
carry = 1, SUBB A,#0xFF the exact sum op + c = 256 exceeds A, so the claim
requires carry = 1 (0xFF with carry always borrows), but the code adds
op + c in 8 bits, wrapping to 0, and yields carry = 0. -/
theorem c4_subb_flag_bugs :
    (({ twoByteCpu 0x94 0x01 with accumulator := 0x80 }).step).1 = .ok () ∧
    (({ twoByteCpu 0x94 0x01 with
          accumulator := 0x80 }).step).2.accumulator = 0x7F ∧
    (({ twoByteCpu 0x94 0x01 with
          accumulator := 0x80 }).step).2.overflow_flag = 0 ∧
    (({ twoByteCpu 0x94 0xFF with carry_flag := 1 }).step).1 = .ok () ∧
    (({ twoByteCpu 0x94 0xFF with
          carry_flag := 1 }).step).2.carry_flag = 0 :=
  ⟨rfl, rfl, rfl, rfl, rfl⟩

/-- Claim C5: an AJMP whose two bytes straddle the 2 KiB page boundary.  The
opcode byte sits at 0x07FF, so the post-fetch program counter is 0x0801 and
the claim requires the committed program counter to be
(0x0801 and 0xF800) or 0x023 = 0x0823.  The code takes the page bits from
the pre-fetch program counter 0x07FF instead and commits 0x0023. -/
theorem c5_ajmp_page_bug :
    (({ CPU.new
          { zeroMem with
              code := fun a =>
                if a = 0x7FF then 0x01 else if a = 0x800 then 0x23 else 0 }
        with program_counter := 0x7FF }).step).1 = .ok () ∧
    (({ CPU.new
          { zeroMem with
              code := fun a =>
                if a = 0x7FF then 0x01 else if a = 0x800 then 0x23 else 0 }
        with program_counter := 0x7FF }).step).2.program_counter = 0x23 :=
  ⟨rfl, rfl⟩

/-- Claim C6: the claim requires a store to an SFR-overlay bit to propagate
the data argument, so that a subsequent load reads the stored value back.
Evaluating the code: storing 0 to Bit 0x80 sends the literal 1 to the
collaborator, and the subsequent load of Bit 0x80 returns 1, not 0. -/
theorem c6_bit_store_bug :
    (CPU.new zeroMem).store (.Bit 0x80) 0 =
      .ok { CPU.new zeroMem with
              memory := { zeroMem with bits := upd zeroMem.bits 0x80 1 } } ∧
    Except.bind ((CPU.new zeroMem).store (.Bit 0x80) 0)
      (fun c => c.load (.Bit 0x80)) = .ok 1 :=
  ⟨rfl, rfl⟩

/-! Helper lemmas about the model. -/

theorem upd_same (f : Nat → Nat) (a v : Nat) : upd f a v a = v := by
  simp [upd]

theorem upd_other (f : Nat → Nat) (a v b : Nat) (h : b ≠ a) :
    upd f a v b = f b := by
  simp [upd, h]

theorem except_bind_ok {α β : Type} (a : α) (f : α → Except String β) :
    (Except.ok a >>= f) = f a := rfl

theorem and_255_eq_mod (x : Nat) : x &&& 255 = x % 256 :=
  Nat.and_pow_two_sub_one_eq_mod x 8

/-- Reassembling the two bytes pushed by LCALL through the shift-or of RET
recovers the original 16-bit value. -/
theorem byte_reassemble (npc : Nat) (h : npc < 65536) :
    (((npc >>> 8) &&& 255) <<< 8) ||| (npc &&& 255) = npc := by
  rw [and_255_eq_mod, and_255_eq_mod, Nat.shiftRight_eq_div_pow]
  have h256 : (2 : Nat) ^ 8 = 256 := by norm_num
  rw [h256]
  have h1 : npc / 256 % 256 = npc / 256 := Nat.mod_eq_of_lt (by omega)
  rw [h1, Nat.shiftLeft_eq, h256]
  have h2 : npc % 256 < 2 ^ 8 := by omega
  have h3 := Nat.mul_add_lt_is_or h2 (npc / 256)
  rw [h256] at h3
  rw [Nat.mul_comm (npc / 256) 256, ← h3]
  omega

/-- Opening the fetch of decode_next_instruction against a known opcode
byte. -/
theorem decode_of_opcode (cpu : CPU) (op : Nat)
    (h : cpu.memory.read_memory (.Code cpu.program_counter) = .ok op) :
    cpu.decode_next_instruction = cpu.decode_op op := by
  unfold CPU.decode_next_instruction
  rw [h]
  rfl

/-- Characterizing step by the outcome of decode and of the dispatch. -/
theorem step_of_decode_exec (cpu : CPU) (i : Instruction) (l : Nat)
    (r : Except String Unit) (c : CPU) (npc2 : Nat)
    (hdec : cpu.decode_next_instruction = .ok (i, l))
    (hex : cpu.exec i ((cpu.program_counter + l) % 65536) = .done r c npc2) :
    cpu.step = (r, { c with program_counter := npc2 }) := by
  unfold CPU.step
  rw [hdec]
  dsimp only
  rw [hex]

/-- Claim C7: from any state with stack headroom, an LCALL (opcode 0x12,
big-endian target hi lo) writes the return address low byte at
stack_pointer + 1 and high byte at stack_pointer + 2, adds 2 to the stack
pointer and jumps, and a RET (opcode 0x22) at the target pops the high then
the low byte and subtracts 2, leaving the program counter at the
instruction following the LCALL and the stack pointer at its pre-call
value. -/
theorem c7_lcall_ret_roundtrip (cpu : CPU) (hi lo : Nat)
    (hsp : cpu.stack_pointer ≤ 126)
    (h0 : cpu.memory.read_memory (.Code cpu.program_counter) = .ok 0x12)
    (h1 : cpu.memory.read_memory
        (.Code ((cpu.program_counter + 1) % 65536)) = .ok hi)
    (h2 : cpu.memory.read_memory
        (.Code ((cpu.program_counter + 2) % 65536)) = .ok lo)
    (h3 : cpu.memory.read_memory (.Code ((hi <<< 8) ||| lo)) = .ok 0x22) :
    (cpu.step).1 = .ok () ∧
    ((cpu.step).2).program_counter = (hi <<< 8) ||| lo ∧
    ((cpu.step).2).stack_pointer = cpu.stack_pointer + 2 ∧
    ((cpu.step).2).memory.iram (cpu.stack_pointer + 1) =
      ((cpu.program_counter + 3) % 65536) &&& 0xff ∧
    ((cpu.step).2).memory.iram (cpu.stack_pointer + 2) =
      (((cpu.program_counter + 3) % 65536) >>> 8) &&& 0xff ∧
    (((cpu.step).2).step).1 = .ok () ∧
    ((((cpu.step).2).step).2).program_counter =
      (cpu.program_counter + 3) % 65536 ∧
    ((((cpu.step).2).step).2).stack_pointer = cpu.stack_pointer := by
  have hnsp : ¬ cpu.stack_pointer ≥ 127 := by omega
  have hnpc : (cpu.program_counter + 3) % 65536 < 65536 :=
    Nat.mod_lt _ (by omega)
  have hlowb : ((cpu.program_counter + 3) % 65536) &&& 0xff < 256 := by
    rw [and_255_eq_mod]
    omega
  have hhighb : (((cpu.program_counter + 3) % 65536) >>> 8) &&& 0xff < 256 := by
    rw [and_255_eq_mod]
    omega
  have hdecA : cpu.decode_next_instruction =
      .ok (.LCALL ((hi <<< 8) ||| lo), 3) := by
    rw [decode_of_opcode cpu 0x12 h0]
    show (do
      let arg1 ← cpu.memory.read_memory
        (.Code ((cpu.program_counter + 1) % 65536))
      let arg2 ← cpu.memory.read_memory
        (.Code ((cpu.program_counter + 2) % 65536))
      Except.ok (Instruction.LCALL ((arg1 <<< 8) ||| arg2), 3)) =
      Except.ok (Instruction.LCALL ((hi <<< 8) ||| lo), 3)
    rw [h1, except_bind_ok, h2, except_bind_ok]
  have hexecA : cpu.exec (.LCALL ((hi <<< 8) ||| lo))
      ((cpu.program_counter + 3) % 65536) =
      .done (.ok ())
        { cpu with
            memory :=
              { cpu.memory with
                  iram :=
                    upd
                      (upd cpu.memory.iram (cpu.stack_pointer + 1)
                        (((cpu.program_counter + 3) % 65536) &&& 0xff))
                      (cpu.stack_pointer + 2)
                      ((((cpu.program_counter + 3) % 65536) >>> 8) &&& 0xff) }
            stack_pointer := cpu.stack_pointer + 2 }
        ((hi <<< 8) ||| lo) := by
    simp only [CPU.exec, hnsp, Mem.write_memory, if_false, ite_false,
      reduceIte]
  have hstep1 := step_of_decode_exec cpu _ 3 _ _ _ hdecA hexecA
  rw [hstep1]
  dsimp only
  have hiram2 :
      upd
        (upd cpu.memory.iram (cpu.stack_pointer + 1)
          (((cpu.program_counter + 3) % 65536) &&& 0xff))
        (cpu.stack_pointer + 2)
        ((((cpu.program_counter + 3) % 65536) >>> 8) &&& 0xff)
        (cpu.stack_pointer + 2) =
      (((cpu.program_counter + 3) % 65536) >>> 8) &&& 0xff := upd_same _ _ _
  have hiram1 :
      upd
        (upd cpu.memory.iram (cpu.stack_pointer + 1)
          (((cpu.program_counter + 3) % 65536) &&& 0xff))
        (cpu.stack_pointer + 2)
        ((((cpu.program_counter + 3) % 65536) >>> 8) &&& 0xff)
        (cpu.stack_pointer + 1) =
      ((cpu.program_counter + 3) % 65536) &&& 0xff := by
    rw [upd_other _ _ _ _ (by omega), upd_same]
  refine ⟨rfl, rfl, rfl, hiram1, hiram2, ?_⟩
  -- the second step: decode and execute the RET at the call target
  have h3c : cpu.memory.code ((hi <<< 8) ||| lo) % 256 = 0x22 := by
    simp only [Mem.read_memory, Except.ok.injEq] at h3
    omega
  have hsp2 : (cpu.stack_pointer + 2 + 255) % 256 = cpu.stack_pointer + 1 := by
    omega
  have hspr : (cpu.stack_pointer + 2 + 254) % 256 = cpu.stack_pointer := by
    omega
  have hdecB :
      CPU.decode_next_instruction
        { cpu with
            memory :=
              { cpu.memory with
                  iram :=
                    upd
                      (upd cpu.memory.iram (cpu.stack_pointer + 1)
                        (((cpu.program_counter + 3) % 65536) &&& 0xff))
                      (cpu.stack_pointer + 2)
                      ((((cpu.program_counter + 3) % 65536) >>> 8) &&& 0xff) }
            stack_pointer := cpu.stack_pointer + 2
            program_counter := (hi <<< 8) ||| lo } = .ok (.RET, 1) := by
    unfold CPU.decode_next_instruction
    simp only [Mem.read_memory]
    rw [h3c]
    rfl
  have hexecB :
      CPU.exec
        { cpu with
            memory :=
              { cpu.memory with
                  iram :=
                    upd
                      (upd cpu.memory.iram (cpu.stack_pointer + 1)
                        (((cpu.program_counter + 3) % 65536) &&& 0xff))
                      (cpu.stack_pointer + 2)
                      ((((cpu.program_counter + 3) % 65536) >>> 8) &&& 0xff) }
            stack_pointer := cpu.stack_pointer + 2
            program_counter := (hi <<< 8) ||| lo }
        .RET ((((hi <<< 8) ||| lo) + 1) % 65536) =
      .done (.ok ())
        { cpu with
            memory :=
              { cpu.memory with
                  iram :=
                    upd
                      (upd cpu.memory.iram (cpu.stack_pointer + 1)
                        (((cpu.program_counter + 3) % 65536) &&& 0xff))
                      (cpu.stack_pointer + 2)
                      ((((cpu.program_counter + 3) % 65536) >>> 8) &&& 0xff) }
            stack_pointer := cpu.stack_pointer
            program_counter := (hi <<< 8) ||| lo }
        ((cpu.program_counter + 3) % 65536) := by
    simp only [CPU.exec, Mem.read_memory]
    rw [hsp2, hiram2, hiram1, Nat.mod_eq_of_lt hhighb, Nat.mod_eq_of_lt hlowb,
      byte_reassemble _ hnpc, hspr]
  have hstep2 := step_of_decode_exec _ _ 1 _ _ _ hdecB hexecB
  rw [hstep2]
  exact ⟨rfl, rfl, rfl⟩

/-- Claim C7 witness: the round trip evaluated on a concrete machine with
stack pointer 0x20, an LCALL 0x0400 at address 0 and a RET at 0x0400. -/
theorem c7_lcall_ret_roundtrip_witness :
    let cpu : CPU :=
      { CPU.new
          { zeroMem with
              code := fun a =>
                if a = 0 then 0x12
                else if a = 1 then 0x04
                else if a = 2 then 0x00
                else if a = 0x400 then 0x22 else 0 }
        with stack_pointer := 0x20 }
    (cpu.step).1 = .ok () ∧
    ((cpu.step).2).program_counter = (4 <<< 8) ||| 0 ∧
    ((cpu.step).2).stack_pointer = 0x20 + 2 ∧
    ((cpu.step).2).memory.iram (0x20 + 1) = ((0 + 3) % 65536) &&& 0xff ∧
    ((cpu.step).2).memory.iram (0x20 + 2) = (((0 + 3) % 65536) >>> 8) &&& 0xff ∧
    (((cpu.step).2).step).1 = .ok () ∧
    ((((cpu.step).2).step).2).program_counter = (0 + 3) % 65536 ∧
    ((((cpu.step).2).step).2).stack_pointer = 0x20 :=
  c7_lcall_ret_roundtrip _ 4 0 (by decide) rfl rfl rfl rfl

/-- The concrete machine of scenario S5: R2 = 3, a two-byte DJNZ R2,-2 self
loop at 0x100. -/
def c8cpu : CPU :=
  { CPU.new
      { zeroMem with
          code := fun a =>
            if a = 0x100 then 0xDA else if a = 0x101 then 0xFE else 0
          iram := fun a => if a = 2 then 3 else 0 }
    with program_counter := 0x100 }

/-- The machine after one, two and three steps of the S5 loop. -/
def c8s1 : CPU := ((c8cpu.step).2)

def c8s2 : CPU := ((c8s1.step).2)

def c8s3 : CPU := ((c8s2.step).2)

/-- Claim C8: executing DJNZ stores the decremented operand back before the
branch decision and branches exactly when the new value is nonzero (first
conjunct, over every addressing mode, offset and candidate pc); and in the
concrete S5 scenario (R2 = 3, DJNZ R2,-2 at 0x100) exactly three steps run
the loop, leaving R2 = 0 and the program counter at 0x102 with the branch
not taken on the decrement to zero. -/
theorem c8_djnz :
    (∀ (c : CPU) (m : AddressingMode) (rel : Int) (npc v : Nat) (c' : CPU),
        c.load m = .ok v → c.store m ((v + 255) % 256) = .ok c' →
        c.exec (.DJNZ m rel) npc =
          .done (.ok ()) c'
            (if (v + 255) % 256 ≠ 0 then relative_jump npc rel else npc)) ∧
    (c8cpu.step).1 = .ok () ∧
    c8s1.program_counter = 0x100 ∧
    c8s1.memory.iram 2 = 2 ∧
    (c8s1.step).1 = .ok () ∧
    c8s2.program_counter = 0x100 ∧
    c8s2.memory.iram 2 = 1 ∧
    (c8s2.step).1 = .ok () ∧
    c8s3.program_counter = 0x102 ∧
    c8s3.memory.iram 2 = 0 := by
  refine ⟨?_, rfl, rfl, rfl, rfl, rfl, rfl, rfl, rfl, rfl⟩
  intro c m rel npc v c' hl hs
  simp only [CPU.exec, hl, hs]

/-- Claim C8 witness: the general DJNZ dispatch property applied to a fresh
machine with R2 = 0, which decrements to 255 and takes the branch. -/
theorem c8_djnz_witness :
    (CPU.new zeroMem).exec (.DJNZ (.Register .R2) (-2)) 7 =
      .done (.ok ())
        { CPU.new zeroMem with
            memory := { zeroMem with iram := upd zeroMem.iram 2 255 } }
        (if (0 + 255) % 256 ≠ 0 then relative_jump 7 (-2) else 7) :=
  c8_djnz.1 (CPU.new zeroMem) (.Register .R2) (-2) 7 0 _ rfl rfl

/-! Machinery for the reachable-state invariants. -/

/-- Well-formedness of the collaborator: the backing cells of the Bit address
space hold bit values.  A real collaborator answers Bit reads with 0 or 1;
the core itself only ever writes the constant 1 into this space. -/
def BitsWF (m : Mem) : Prop := ∀ a, m.bits a ≤ 1

/-- The inductive invariant: the bank is zero (hence below 4), the three
status flag bytes are boolean-valued, and the collaborator stays
well-formed. -/
def Inv (c : CPU) : Prop :=
  c.bank = 0 ∧ c.carry_flag ≤ 1 ∧ c.auxillary_carry_flag ≤ 1 ∧
    c.overflow_flag ≤ 1 ∧ BitsWF c.memory

/-- States reachable from the zero-initialized constructor (over a
well-formed collaborator) by successful steps. -/
inductive Reachable : CPU → Prop where
  | base (m : Mem) (hm : BitsWF m) : Reachable (CPU.new m)
  | next (c : CPU) (h : Reachable c) (hok : (c.step).1 = .ok ()) :
      Reachable ((c.step).2)

/-- Shape constraints satisfied by every instruction the decoder emits, as
needed to propagate the flag invariant: the only writes aimed at the carry
pseudo-register C carry bit-valued data. -/
def DecOK : Instruction → Prop
  | .MOV m1 m2 => m1 = .Register .C → ∃ b, m2 = .Bit b
  | .ORL m1 m2 => m1 = .Register .C → ∃ b, m2 = .Bit b ∨ m2 = .NotBit b
  | .ANL m1 _ => m1 ≠ .Register .C
  | .XRL m1 _ => m1 ≠ .Register .C
  | .MOVX m1 _ => m1 ≠ .Register .C
  | .INC m => m ≠ .Register .C
  | .DEC m => m ≠ .Register .C
  | .DJNZ m _ => m ≠ .Register .C
  | .POP m => m ≠ .Register .C
  | _ => True

/-- Storing to the carry pseudo-register writes the carry flag verbatim. -/
theorem store_C (c : CPU) (d : Nat) :
    c.store (.Register .C) d = .ok { c with carry_flag := d } := rfl

/-- A successful store never touches the bank, the auxiliary carry or the
overflow flag; it leaves the carry flag alone unless the target is the carry
pseudo-register; and it preserves collaborator well-formedness (the
SFR-overlay bit store writes the constant 1, a bit value). -/
theorem store_effects (c : CPU) (m : AddressingMode) (d : Nat) (c' : CPU)
    (h : c.store m d = .ok c') :
    c'.bank = c.bank ∧
    c'.auxillary_carry_flag = c.auxillary_carry_flag ∧
    c'.overflow_flag = c.overflow_flag ∧
    (m ≠ .Register .C → c'.carry_flag = c.carry_flag) ∧
    (BitsWF c.memory → BitsWF c'.memory) := by
  cases m with
  | Immediate v => simp [CPU.store] at h
  | NotBit b => simp [CPU.store] at h
  | IndirectCode r => simp [CPU.store] at h
  | Register r =>
    cases r with
    | A =>
      simp only [CPU.store, Except.ok.injEq] at h
      subst h
      exact ⟨rfl, rfl, rfl, fun _ => rfl, fun hw => hw⟩
    | C =>
      simp only [CPU.store, Except.ok.injEq] at h
      subst h
      exact ⟨rfl, rfl, rfl, fun hne => absurd rfl hne, fun hw => hw⟩
    | R0 =>
      simp only [CPU.store, Mem.write_memory, Except.ok.injEq] at h
      subst h
      exact ⟨rfl, rfl, rfl, fun _ => rfl, fun hw => hw⟩
    | R1 =>
      simp only [CPU.store, Mem.write_memory, Except.ok.injEq] at h
      subst h
      exact ⟨rfl, rfl, rfl, fun _ => rfl, fun hw => hw⟩
    | R2 =>
      simp only [CPU.store, Mem.write_memory, Except.ok.injEq] at h
      subst h
      exact ⟨rfl, rfl, rfl, fun _ => rfl, fun hw => hw⟩
    | R3 =>
      simp only [CPU.store, Mem.write_memory, Except.ok.injEq] at h
      subst h
      exact ⟨rfl, rfl, rfl, fun _ => rfl, fun hw => hw⟩
    | R4 =>
      simp only [CPU.store, Mem.write_memory, Except.ok.injEq] at h
      subst h
      exact ⟨rfl, rfl, rfl, fun _ => rfl, fun hw => hw⟩
    | R5 =>
      simp only [CPU.store, Mem.write_memory, Except.ok.injEq] at h
      subst h
      exact ⟨rfl, rfl, rfl, fun _ => rfl, fun hw => hw⟩
    | R6 =>
      simp only [CPU.store, Mem.write_memory, Except.ok.injEq] at h
      subst h
      exact ⟨rfl, rfl, rfl, fun _ => rfl, fun hw => hw⟩
    | R7 =>
      simp only [CPU.store, Mem.write_memory, Except.ok.injEq] at h
      subst h
      exact ⟨rfl, rfl, rfl, fun _ => rfl, fun hw => hw⟩
    | PC => simp [CPU.store] at h
    | DPTR => simp [CPU.store] at h
  | Bit b =>
    by_cases hb : b < 128
    · simp only [CPU.store, hb, ite_true, Mem.read_memory, Mem.write_memory,
        Except.ok.injEq] at h
      subst h
      exact ⟨rfl, rfl, rfl, fun _ => rfl, fun hw => hw⟩
    · simp only [CPU.store, hb, ite_false, Mem.write_memory,
        Except.ok.injEq] at h
      subst h
      refine ⟨rfl, rfl, rfl, fun _ => rfl, fun hw x => ?_⟩
      show upd c.memory.bits b 1 x ≤ 1
      unfold upd
      split
      · omega
      · exact hw x
  | Direct a =>
    simp only [CPU.store] at h
    by_cases hlt : a < 128
    · rw [if_pos hlt] at h
      simp only [Mem.write_memory, Except.ok.injEq] at h
      subst h
      exact ⟨rfl, rfl, rfl, fun _ => rfl, fun hw => hw⟩
    · rw [if_neg hlt] at h
      by_cases h81 : a = 0x81
      · rw [if_pos h81] at h
        simp only [Except.ok.injEq] at h
        subst h
        exact ⟨rfl, rfl, rfl, fun _ => rfl, fun hw => hw⟩
      · rw [if_neg h81] at h
        by_cases h82 : a = 0x82
        · rw [if_pos h82] at h
          simp only [Except.ok.injEq] at h
          subst h
          exact ⟨rfl, rfl, rfl, fun _ => rfl, fun hw => hw⟩
        · rw [if_neg h82] at h
          by_cases h83 : a = 0x83
          · rw [if_pos h83] at h
            simp only [Except.ok.injEq] at h
            subst h
            exact ⟨rfl, rfl, rfl, fun _ => rfl, fun hw => hw⟩
          · rw [if_neg h83] at h
            by_cases hE0 : a = 0xE0
            · rw [if_pos hE0] at h
              simp only [Except.ok.injEq] at h
              subst h
              exact ⟨rfl, rfl, rfl, fun _ => rfl, fun hw => hw⟩
            · rw [if_neg hE0] at h
              by_cases hF0 : a = 0xF0
              · rw [if_pos hF0] at h
                simp only [Except.ok.injEq] at h
                subst h
                exact ⟨rfl, rfl, rfl, fun _ => rfl, fun hw => hw⟩
              · rw [if_neg hF0] at h
                simp only [Mem.write_memory, Except.ok.injEq] at h
                subst h
                exact ⟨rfl, rfl, rfl, fun _ => rfl, fun hw => hw⟩
  | Indirect r =>
    cases r with
    | R0 =>
      simp only [CPU.store, Mem.read_memory, Mem.write_memory,
        Except.ok.injEq] at h
      subst h
      exact ⟨rfl, rfl, rfl, fun _ => rfl, fun hw => hw⟩
    | R1 =>
      simp only [CPU.store, Mem.read_memory, Mem.write_memory,
        Except.ok.injEq] at h
      subst h
      exact ⟨rfl, rfl, rfl, fun _ => rfl, fun hw => hw⟩
    | R2 => simp [CPU.store] at h
    | R3 => simp [CPU.store] at h
    | R4 => simp [CPU.store] at h
    | R5 => simp [CPU.store] at h
    | R6 => simp [CPU.store] at h
    | R7 => simp [CPU.store] at h
    | A => simp [CPU.store] at h
    | C => simp [CPU.store] at h
    | PC => simp [CPU.store] at h
    | DPTR => simp [CPU.store] at h
  | IndirectExternal r =>
    cases r with
    | R0 =>
      simp only [CPU.store, Mem.read_memory, Mem.write_memory,
        Except.ok.injEq] at h
      subst h
      exact ⟨rfl, rfl, rfl, fun _ => rfl, fun hw => hw⟩
    | R1 =>
      simp only [CPU.store, Mem.read_memory, Mem.write_memory,
        Except.ok.injEq] at h
      subst h
      exact ⟨rfl, rfl, rfl, fun _ => rfl, fun hw => hw⟩
    | DPTR =>
      simp only [CPU.store, Mem.write_memory, Except.ok.injEq] at h
      subst h
      exact ⟨rfl, rfl, rfl, fun _ => rfl, fun hw => hw⟩
    | R2 => simp [CPU.store] at h
    | R3 => simp [CPU.store] at h
    | R4 => simp [CPU.store] at h
    | R5 => simp [CPU.store] at h
    | R6 => simp [CPU.store] at h
    | R7 => simp [CPU.store] at h
    | A => simp [CPU.store] at h
    | C => simp [CPU.store] at h
    | PC => simp [CPU.store] at h

/-- A bit load yields a bit value when the collaborator is well-formed. -/
theorem load_bit_le (c : CPU) (b v : Nat) (hwf : BitsWF c.memory)
    (h : c.load (.Bit b) = .ok v) : v ≤ 1 := by
  simp only [CPU.load, CPU.loadBit, Mem.read_memory] at h
  split at h
  · split at h <;> (simp only [Except.ok.injEq] at h; omega)
  · split at h
    · simp only [Except.ok.injEq] at h
      have := Nat.and_le_right (n := c.accumulator >>> (b &&& 0x7)) (m := 1)
      omega
    · split at h
      · simp only [Except.ok.injEq] at h
        have := Nat.and_le_right (n := c.b_register >>> (b &&& 0x7)) (m := 1)
        omega
      · simp only [Except.ok.injEq] at h
        have hB := hwf b
        omega

/-- A complemented bit load always yields a bit value. -/
theorem load_notbit_le (c : CPU) (b v : Nat)
    (h : c.load (.NotBit b) = .ok v) : v ≤ 1 := by
  simp only [CPU.load] at h
  split at h
  · cases h
  · split at h <;> simp only [Except.ok.injEq] at h <;> omega

/-- The bitwise or of two bit values is a bit value. -/
theorem lor_le_one {a b : Nat} (ha : a ≤ 1) (hb : b ≤ 1) : a ||| b ≤ 1 := by
  interval_cases a <;> interval_cases b <;> decide

/-- A successful store preserves the invariant provided any write aimed at
the carry pseudo-register carries a bit value. -/
theorem store_Inv (c : CPU) (m : AddressingMode) (d : Nat) (c' : CPU)
    (h : c.store m d = .ok c') (hinv : Inv c)
    (hd : m = .Register .C → d ≤ 1) : Inv c' := by
  by_cases hm : m = .Register .C
  · subst hm
    rw [store_C] at h
    simp only [Except.ok.injEq] at h
    subst h
    exact ⟨hinv.1, hd rfl, hinv.2.2.1, hinv.2.2.2.1, hinv.2.2.2.2⟩
  · obtain ⟨hb, ha, ho, hc, hw⟩ := store_effects c m d c' h
    refine ⟨?_, ?_, ?_, ?_, hw hinv.2.2.2.2⟩
    · rw [hb]
      exact hinv.1
    · rw [hc hm]
      exact hinv.2.1
    · rw [ha]
      exact hinv.2.2.1
    · rw [ho]
      exact hinv.2.2.2.1

/-- The dispatch of any decoder-emitted instruction preserves the invariant,
whether it succeeds or fails. -/
theorem exec_inv (c : CPU) (i : Instruction) (npc : Nat)
    (hinv : Inv c) (hdk : DecOK i) : Inv ((c.exec i npc).cpu) := by
  cases i with
  | ACALL a => exact hinv
  | CPL m => exact hinv
  | DA => exact hinv
  | DIV => exact hinv
  | JB m rel => exact hinv
  | JBC m rel => exact hinv
  | JMP => exact hinv
  | MUL => exact hinv
  | RL => exact hinv
  | RLC => exact hinv
  | RR => exact hinv
  | RRC => exact hinv
  | SWAP => exact hinv
  | XCH m => exact hinv
  | XCHD m => exact hinv
  | XRL m1 m2 => exact hinv
  | Undefined => exact hinv
  | NOP => exact hinv
  | AJMP a => exact hinv
  | LJMP a => exact hinv
  | SJMP rel => exact hinv
  | JC rel => exact hinv
  | JNC rel => exact hinv
  | JNZ rel => exact hinv
  | JZ rel => exact hinv
  | LoadDptr a => exact hinv
  | JNB m rel =>
    rcases hl : c.load m with e | v <;>
      simp only [CPU.exec, hl, ExecOut.cpu] <;> exact hinv
  | MOVC m =>
    rcases hl : c.load m with e | v <;>
      simp only [CPU.exec, hl, ExecOut.cpu] <;> exact hinv
  | ADD m =>
    rcases hl : c.load m with e | v
    · simp only [CPU.exec, hl, ExecOut.cpu]
      exact hinv
    · simp only [CPU.exec, hl, ExecOut.cpu]
      obtain ⟨hbk, hcf, haf, hof, hwf⟩ := hinv
      refine ⟨hbk, ?_, ?_, ?_, hwf⟩
      · dsimp only
        split <;> omega
      · dsimp only
        split <;> omega
      · dsimp only
        repeat' split
        all_goals omega
  | ADDC m =>
    rcases hl : c.load m with e | v
    · simp only [CPU.exec, hl, ExecOut.cpu]
      exact hinv
    · simp only [CPU.exec, hl, ExecOut.cpu]
      obtain ⟨hbk, hcf, haf, hof, hwf⟩ := hinv
      refine ⟨hbk, ?_, ?_, ?_, hwf⟩
      · dsimp only
        split <;> omega
      · dsimp only
        split <;> omega
      · dsimp only
        repeat' split
        all_goals omega
  | SUBB m =>
    rcases hl : c.load m with e | v
    · simp only [CPU.exec, hl, ExecOut.cpu]
      exact hinv
    · simp only [CPU.exec, hl, ExecOut.cpu]
      obtain ⟨hbk, hcf, haf, hof, hwf⟩ := hinv
      refine ⟨hbk, ?_, ?_, ?_, hwf⟩
      · dsimp only
        split <;> omega
      · dsimp only
        split <;> omega
      · dsimp only
        split <;> omega
  | CJNE m1 m2 rel =>
    rcases hl1 : c.load m1 with e | v1
    · simp only [CPU.exec, hl1, ExecOut.cpu]
      exact hinv
    · rcases hl2 : c.load m2 with e | v2 <;>
        simp only [CPU.exec, hl1, hl2, ExecOut.cpu]
      · exact hinv
      · obtain ⟨hbk, hcf, haf, hof, hwf⟩ := hinv
        exact ⟨hbk, by dsimp only; split <;> omega, haf, hof, hwf⟩
  | CLR m =>
    rcases hs : c.store m 0 with e | c2 <;>
      simp only [CPU.exec, hs, ExecOut.cpu]
    · exact hinv
    · exact store_Inv c m 0 c2 hs hinv (fun _ => by omega)
  | SETB m =>
    rcases hs : c.store m 1 with e | c2 <;>
      simp only [CPU.exec, hs, ExecOut.cpu]
    · exact hinv
    · exact store_Inv c m 1 c2 hs hinv (fun _ => by omega)
  | MOV m1 m2 =>
    rcases hl : c.load m2 with e | v
    · simp only [CPU.exec, hl, ExecOut.cpu]
      exact hinv
    · rcases hs : c.store m1 v with e | c2 <;>
        simp only [CPU.exec, hl, hs, ExecOut.cpu]
      · exact hinv
      · refine store_Inv c m1 v c2 hs hinv (fun hm1 => ?_)
        obtain ⟨b, hb⟩ := hdk hm1
        subst hb
        exact load_bit_le c b v hinv.2.2.2.2 hl
  | ANL m1 m2 =>
    rcases hl1 : c.load m1 with e | v1
    · simp only [CPU.exec, hl1, ExecOut.cpu]
      exact hinv
    · rcases hl2 : c.load m2 with e | v2
      · simp only [CPU.exec, hl1, hl2, ExecOut.cpu]
        exact hinv
      · rcases hs : c.store m1 (v1 &&& v2) with e | c2 <;>
          simp only [CPU.exec, hl1, hl2, hs, ExecOut.cpu]
        · exact hinv
        · exact store_Inv c m1 _ c2 hs hinv (fun hm1 => absurd hm1 hdk)
  | ORL m1 m2 =>
    rcases hl1 : c.load m1 with e | v1
    · simp only [CPU.exec, hl1, ExecOut.cpu]
      exact hinv
    · rcases hl2 : c.load m2 with e | v2
      · simp only [CPU.exec, hl1, hl2, ExecOut.cpu]
        exact hinv
      · rcases hs : c.store m1 (v1 ||| v2) with e | c2 <;>
          simp only [CPU.exec, hl1, hl2, hs, ExecOut.cpu]
        · exact hinv
        · refine store_Inv c m1 _ c2 hs hinv (fun hm1 => ?_)
          have hv1 : v1 ≤ 1 := by
            subst hm1
            simp only [CPU.load, Except.ok.injEq] at hl1
            have := hinv.2.1
            omega
          have hv2 : v2 ≤ 1 := by
            obtain ⟨b, hb⟩ := hdk hm1
            rcases hb with hb | hb
            · subst hb
              exact load_bit_le c b v2 hinv.2.2.2.2 hl2
            · subst hb
              exact load_notbit_le c b v2 hl2
          exact lor_le_one hv1 hv2
  | MOVX m1 m2 =>
    rcases hl : c.load m2 with e | v
    · simp only [CPU.exec, hl, ExecOut.cpu]
      exact hinv
    · rcases hs : c.store m1 v with e | c2 <;>
        simp only [CPU.exec, hl, hs, ExecOut.cpu]
      · exact hinv
      · exact store_Inv c m1 v c2 hs hinv (fun hm1 => absurd hm1 hdk)
  | INC m =>
    simp only [CPU.exec]
    split
    · exact hinv
    · rcases hl : c.load m with e | v
      · simp only [hl, ExecOut.cpu]
        exact hinv
      · rcases hs : c.store m ((v + 1) % 256) with e | c2 <;>
          simp only [hl, hs, ExecOut.cpu]
        · exact hinv
        · exact store_Inv c m _ c2 hs hinv (fun hm => absurd hm hdk)
  | DEC m =>
    rcases hl : c.load m with e | v
    · simp only [CPU.exec, hl, ExecOut.cpu]
      exact hinv
    · rcases hs : c.store m ((v + 255) % 256) with e | c2 <;>
        simp only [CPU.exec, hl, hs, ExecOut.cpu]
      · exact hinv
      · exact store_Inv c m _ c2 hs hinv (fun hm => absurd hm hdk)
  | DJNZ m rel =>
    rcases hl : c.load m with e | v
    · simp only [CPU.exec, hl, ExecOut.cpu]
      exact hinv
    · rcases hs : c.store m ((v + 255) % 256) with e | c2 <;>
        simp only [CPU.exec, hl, hs, ExecOut.cpu]
      · exact hinv
      · exact store_Inv c m _ c2 hs hinv (fun hm => absurd hm hdk)
  | POP m =>
    simp only [CPU.exec, Mem.read_memory]
    rcases hs : CPU.store
        { c with stack_pointer := (c.stack_pointer + 255) % 256 } m
        (c.memory.iram c.stack_pointer % 256) with e | c2 <;>
      simp only [hs, ExecOut.cpu]
    · exact hinv
    · exact store_Inv _ m _ c2 hs hinv (fun hm => absurd hm hdk)
  | PUSH m =>
    simp only [CPU.exec]
    split
    · exact hinv
    · rcases hl : c.load m with e | v <;>
        simp only [hl, Mem.write_memory, ExecOut.cpu]
      · exact hinv
      · exact hinv
  | LCALL a =>
    simp only [CPU.exec]
    split
    · exact hinv
    · simp only [Mem.write_memory, ExecOut.cpu]
      exact hinv
  | RET =>
    simp only [CPU.exec, Mem.read_memory, ExecOut.cpu]
    exact hinv
  | RETI =>
    simp only [CPU.exec, Mem.read_memory, ExecOut.cpu]
    exact hinv

/-- Every instruction the opcode dispatch table emits satisfies the shape
constraints DecOK. -/
theorem register_from_opcode_ne_C (id : Nat) :
    register_from_opcode id ≠ .C := by
  unfold register_from_opcode
  split <;> exact fun hc => Register.noConfusion hc

theorem decode_op_DecOK (cpu : CPU) (op : Nat) (i : Instruction) (l : Nat)
    (hop : op < 256) (h : cpu.decode_op op = .ok (i, l)) : DecOK i := by
  interval_cases op <;>
  first
    | exact Except.noConfusion h
    | (injection h with hp
       injection hp with hi hl
       subst hi
       first
         | exact trivial
         | exact fun hc => AddressingMode.noConfusion hc
         | exact fun hc =>
             AddressingMode.noConfusion hc fun hr => Register.noConfusion hr
         | exact fun hc =>
             AddressingMode.noConfusion hc fun hr =>
               absurd hr (register_from_opcode_ne_C _)
         | exact fun _ => ⟨_, rfl⟩
         | exact fun _ => ⟨_, Or.inl rfl⟩
         | exact fun _ => ⟨_, Or.inr rfl⟩)

/-- Every instruction the decoder emits satisfies DecOK. -/
theorem step_DecOK (cpu : CPU) (i : Instruction) (l : Nat)
    (h : cpu.decode_next_instruction = .ok (i, l)) : DecOK i := by
  unfold CPU.decode_next_instruction at h
  simp only [Mem.read_memory, except_bind_ok] at h
  exact decode_op_DecOK cpu _ i l (Nat.mod_lt _ (by omega)) h

/-- One step, successful or not, preserves the invariant. -/
theorem step_inv (c : CPU) (h : Inv c) : Inv ((c.step).2) := by
  rcases hdec : c.decode_next_instruction with e | il
  · unfold CPU.step
    simp only [hdec]
    exact h
  · obtain ⟨i, l⟩ := il
    have hdk := step_DecOK c i l hdec
    have he := exec_inv c i ((c.program_counter + l) % 65536) h hdk
    unfold CPU.step
    simp only [hdec]
    rcases hex : c.exec i ((c.program_counter + l) % 65536) with ⟨e, c2⟩ | ⟨r, c2, npc2⟩ <;>
      rw [hex] at he <;> simp only [hex] <;> exact he

/-- Every reachable state satisfies the invariant. -/
theorem reachable_inv (c : CPU) (h : Reachable c) : Inv c := by
  induction h with
  | base m hm => exact ⟨rfl, Nat.zero_le 1, Nat.zero_le 1, Nat.zero_le 1, hm⟩
  | next c hr hok ih => exact step_inv c ih

/-- Claim C9: in every CPU state reachable from the zero-initialized
constructor (over a well-formed collaborator) by successful steps, the bank
is below 4 and each status flag byte is exactly 0 or 1. -/
theorem c9_reachable_invariant (c : CPU) (h : Reachable c) :
    c.bank < 4 ∧
    (c.carry_flag = 0 ∨ c.carry_flag = 1) ∧
    (c.auxillary_carry_flag = 0 ∨ c.auxillary_carry_flag = 1) ∧
    (c.overflow_flag = 0 ∨ c.overflow_flag = 1) := by
  obtain ⟨hb, h1, h2, h3, _⟩ := reachable_inv c h
  exact ⟨by omega, by omega, by omega, by omega⟩

/-- Claim C9 witness: the invariant at the freshly constructed machine over
the all-zero memory. -/
theorem c9_reachable_invariant_witness :
    (CPU.new zeroMem).bank < 4 ∧
    ((CPU.new zeroMem).carry_flag = 0 ∨ (CPU.new zeroMem).carry_flag = 1) ∧
    ((CPU.new zeroMem).auxillary_carry_flag = 0 ∨
      (CPU.new zeroMem).auxillary_carry_flag = 1) ∧
    ((CPU.new zeroMem).overflow_flag = 0 ∨
      (CPU.new zeroMem).overflow_flag = 1) :=
  c9_reachable_invariant (CPU.new zeroMem)
    (Reachable.base zeroMem (fun _ => Nat.zero_le 1))

/-- The dispatch of any instruction leaves the bank field unchanged. -/
theorem exec_bank (c : CPU) (i : Instruction) (npc : Nat) :
    ((c.exec i npc).cpu).bank = c.bank := by
  cases i with
  | ACALL a => rfl
  | CPL m => rfl
  | DA => rfl
  | DIV => rfl
  | JB m rel => rfl
  | JBC m rel => rfl
  | JMP => rfl
  | MUL => rfl
  | RL => rfl
  | RLC => rfl
  | RR => rfl
  | RRC => rfl
  | SWAP => rfl
  | XCH m => rfl
  | XCHD m => rfl
  | XRL m1 m2 => rfl
  | Undefined => rfl
  | NOP => rfl
  | AJMP a => rfl
  | LJMP a => rfl
  | SJMP rel => rfl
  | JC rel => rfl
  | JNC rel => rfl
  | JNZ rel => rfl
  | JZ rel => rfl
  | LoadDptr a => rfl
  | JNB m rel =>
    rcases hl : c.load m with e | v <;> simp [CPU.exec, hl, ExecOut.cpu]
  | MOVC m =>
    rcases hl : c.load m with e | v <;> simp [CPU.exec, hl, ExecOut.cpu]
  | ADD m =>
    rcases hl : c.load m with e | v <;> simp [CPU.exec, hl, ExecOut.cpu]
  | ADDC m =>
    rcases hl : c.load m with e | v <;> simp [CPU.exec, hl, ExecOut.cpu]
  | SUBB m =>
    rcases hl : c.load m with e | v <;> simp [CPU.exec, hl, ExecOut.cpu]
  | CJNE m1 m2 rel =>
    rcases hl1 : c.load m1 with e | v1
    · simp [CPU.exec, hl1, ExecOut.cpu]
    · rcases hl2 : c.load m2 with e | v2 <;>
        simp [CPU.exec, hl1, hl2, ExecOut.cpu]
  | CLR m =>
    rcases hs : c.store m 0 with e | c2 <;> simp [CPU.exec, hs, ExecOut.cpu]
    exact (store_effects _ _ _ _ hs).1
  | SETB m =>
    rcases hs : c.store m 1 with e | c2 <;> simp [CPU.exec, hs, ExecOut.cpu]
    exact (store_effects _ _ _ _ hs).1
  | MOV m1 m2 =>
    rcases hl : c.load m2 with e | v
    · simp [CPU.exec, hl, ExecOut.cpu]
    · rcases hs : c.store m1 v with e | c2 <;>
        simp [CPU.exec, hl, hs, ExecOut.cpu]
      exact (store_effects _ _ _ _ hs).1
  | MOVX m1 m2 =>
    rcases hl : c.load m2 with e | v
    · simp [CPU.exec, hl, ExecOut.cpu]
    · rcases hs : c.store m1 v with e | c2 <;>
        simp [CPU.exec, hl, hs, ExecOut.cpu]
      exact (store_effects _ _ _ _ hs).1
  | ANL m1 m2 =>
    rcases hl1 : c.load m1 with e | v1
    · simp [CPU.exec, hl1, ExecOut.cpu]
    · rcases hl2 : c.load m2 with e | v2
      · simp [CPU.exec, hl1, hl2, ExecOut.cpu]
      · rcases hs : c.store m1 (v1 &&& v2) with e | c2 <;>
          simp [CPU.exec, hl1, hl2, hs, ExecOut.cpu]
        exact (store_effects _ _ _ _ hs).1
  | ORL m1 m2 =>
    rcases hl1 : c.load m1 with e | v1
    · simp [CPU.exec, hl1, ExecOut.cpu]
    · rcases hl2 : c.load m2 with e | v2
      · simp [CPU.exec, hl1, hl2, ExecOut.cpu]
      · rcases hs : c.store m1 (v1 ||| v2) with e | c2 <;>
          simp [CPU.exec, hl1, hl2, hs, ExecOut.cpu]
        exact (store_effects _ _ _ _ hs).1
  | INC m =>
    simp only [CPU.exec]
    split
    · rfl
    · rcases hl : c.load m with e | v
      · simp [hl, ExecOut.cpu]
      · rcases hs : c.store m ((v + 1) % 256) with e | c2 <;>
          simp [hl, hs, ExecOut.cpu]
        exact (store_effects _ _ _ _ hs).1
  | DEC m =>
    rcases hl : c.load m with e | v
    · simp [CPU.exec, hl, ExecOut.cpu]
    · rcases hs : c.store m ((v + 255) % 256) with e | c2 <;>
        simp [CPU.exec, hl, hs, ExecOut.cpu]
      exact (store_effects _ _ _ _ hs).1
  | DJNZ m rel =>
    rcases hl : c.load m with e | v
    · simp [CPU.exec, hl, ExecOut.cpu]
    · rcases hs : c.store m ((v + 255) % 256) with e | c2 <;>
        simp [CPU.exec, hl, hs, ExecOut.cpu]
      exact (store_effects _ _ _ _ hs).1
  | POP m =>
    simp only [CPU.exec, Mem.read_memory]
    rcases hs : CPU.store
        { c with stack_pointer := (c.stack_pointer + 255) % 256 } m
        (c.memory.iram c.stack_pointer % 256) with e | c2 <;>
      simp [hs, ExecOut.cpu]
    exact (store_effects _ _ _ _ hs).1
  | PUSH m =>
    simp only [CPU.exec]
    split
    · rfl
    · rcases hl : c.load m with e | v <;>
        simp [hl, Mem.write_memory, ExecOut.cpu]
  | LCALL a =>
    simp only [CPU.exec]
    split
    · rfl
    · simp [Mem.write_memory, ExecOut.cpu]
  | RET => simp [CPU.exec, Mem.read_memory, ExecOut.cpu]
  | RETI => simp [CPU.exec, Mem.read_memory, ExecOut.cpu]

/-- One step, successful or not, leaves the bank unchanged. -/
theorem step_bank (c : CPU) : ((c.step).2).bank = c.bank := by
  rcases hdec : c.decode_next_instruction with e | il
  · unfold CPU.step
    simp only [hdec]
  · obtain ⟨i, l⟩ := il
    have he := exec_bank c i ((c.program_counter + l) % 65536)
    unfold CPU.step
    simp only [hdec]
    rcases hex : c.exec i ((c.program_counter + l) % 65536) with ⟨e, c2⟩ | ⟨r, c2, npc2⟩ <;>
      rw [hex] at he <;> simp only [hex] <;> exact he

/-- Claim C10: the bank field is never written - it is 0 at construction,
unchanged by every step() (successful or not), and a store to Direct 0xD0
(the PSW address, whose bits 3 and 4 architecturally select the bank) is
delegated verbatim to the SFR collaborator without touching bank, so
R0..R7 always alias internal RAM bytes 0..7. -/
theorem c10_bank_never_written :
    (∀ m : Mem, (CPU.new m).bank = 0) ∧
    (∀ c : CPU, ((c.step).2).bank = c.bank) ∧
    (∀ (c : CPU) (d : Nat),
        c.store (.Direct 0xD0) d =
          .ok { c with
                  memory :=
                    { c.memory with sfr := upd c.memory.sfr 0xD0 d } }) :=
  ⟨fun _ => rfl, step_bank, fun _ _ => rfl⟩

end Mcs51
